import Mathlib

/-!
# Inventory Ledger & Production Batch Lifecycle Engine — verification

Shallow embedding of the transactional mutation resolvers of
`src/backend/src/resolvers/mutation.rs` (the Ledger Engine of the
frederick-ferments-app repository), together with proofs settling the
frozen claims about this engine.

Modelling conventions:
* `BigDecimal` is modelled as `ℚ` (exact arithmetic, as in the source).
* `Uuid` database identities are modelled as `Nat`; row ids produced by the
  database (`RETURNING id`) are modelled by explicit fresh-id counters in
  the database state.
* `DateTime<Utc>` is modelled as a structure carrying the instant in whole
  hours (`ts : Int`, so that `Duration::num_hours` is plain subtraction)
  together with its `%Y%m%d` rendering (`ymd`), the only two observations
  the source makes of a timestamp.
* Each resolver runs inside one transaction; a resolver is a function
  `DB → Input → Option (DB × Result)` where `none` models a thrown
  (infrastructure) error — sqlx `?` propagation — after which the
  transaction rolls back, so the caller keeps the pre-state.  `some`
  models a committed transaction together with the returned value.
* Postgres `ORDER BY batch_number DESC LIMIT 1` over `LIKE 'p-%'` rows is
  modelled as the maximum of the matching strings in Lean's `String`
  order (byte/codepoint order, agreeing with the C collation on the ASCII
  strings involved), and `LIKE 'p-%'` as `String.startsWith` (the stem
  produced by the source contains no `%`/`_` wildcard).
* The table schema (migrations) is not part of the sources; only
  behaviour visible in the resolver code is modelled.  In particular the
  generated column `available_stock` is exposed as a derived function,
  never stored, and `suppliers` is kept as the list of supplier ids (the
  resolvers only ever test `SELECT id FROM suppliers WHERE id = $1`).
* `CreateInventoryItemInput` / `UpdateInventoryItemInput` are declared in
  a models file absent from the sources; their fields are reconstructed
  from their use sites in `create_inventory_item` / `update_inventory_item`.
-/

namespace FF

/-- A UTC instant as observed by the resolvers: `ts` is the instant in whole
hours (so `(a - b).num_hours` is `a.ts - b.ts`) and `ymd` is the
`format("%Y%m%d")` rendering used by the batch sequencer. -/
structure DateTime where
  ts : Int
  ymd : String
deriving DecidableEq, Repr

/-- Row of the `inventory` table (`models/inventory.rs`, `InventoryItem`).
The generated column `available_stock` is derived, see
`InventoryItem.available_stock`. -/
structure InventoryItem where
  id : Nat
  name : String
  category : String
  unit : String
  current_stock : ℚ
  reserved_stock : ℚ
  reorder_point : ℚ
  cost_per_unit : Option ℚ
  default_supplier_id : Option Nat
  shelf_life_days : Option Int
  storage_requirements : Option String
  is_active : Bool
  created_at : DateTime
  updated_at : DateTime
deriving DecidableEq, Repr

/-- The generated `available_stock` column: `current_stock - reserved_stock`. -/
def InventoryItem.available_stock (it : InventoryItem) : ℚ :=
  it.current_stock - it.reserved_stock

/-- Row of the append-only `inventory_logs` table (the movement log). -/
structure MovementEntry where
  inventory_id : Nat
  movement_type : String
  quantity : ℚ
  unit_cost : Option ℚ
  reason : String
  batch_number : Option String
  expiry_date : Option Int
  created_at : DateTime
deriving DecidableEq, Repr

/-- Row of the `production_batches` table (`models/production.rs`,
`ProductionBatch`); `updated_at` is `none` until a terminal transition
writes it (the insert leaves it to a database default). -/
structure ProductionBatch where
  id : Nat
  batch_number : String
  product_inventory_id : Nat
  recipe_template_id : Option Nat
  batch_size : ℚ
  unit : String
  start_date : DateTime
  estimated_completion_date : Option DateTime
  completion_date : Option DateTime
  production_date : DateTime
  status : String
  production_time_hours : Option ℚ
  yield_percentage : Option ℚ
  actual_yield : Option ℚ
  quality_notes : Option String
  storage_location : Option String
  notes : Option String
  updated_at : Option DateTime
deriving DecidableEq, Repr

/-- Row of the `production_batch_ingredients` table. -/
structure ProductionBatchIngredient where
  batch_id : Nat
  ingredient_inventory_id : Nat
  quantity_used : ℚ
  unit : String
deriving DecidableEq, Repr

/-- The database state shared by all resolvers.  `next_item_id` /
`next_batch_id` model the id values the database would produce for
`RETURNING id`. -/
structure DB where
  inventory : List InventoryItem
  inventory_logs : List MovementEntry
  production_batches : List ProductionBatch
  batch_ingredients : List ProductionBatchIngredient
  suppliers : List Nat
  next_item_id : Nat
  next_batch_id : Nat
deriving DecidableEq, Repr

/-! ## Input and result types (`models/inventory.rs`, `models/production.rs`) -/

structure PurchaseItemInput where
  inventory_id : Nat
  quantity : ℚ
  unit_cost : ℚ
  expiry_date : Option Int
  batch_number : Option String
deriving DecidableEq, Repr

structure CreatePurchaseInput where
  supplier_id : Nat
  items : List PurchaseItemInput
  purchase_date : Option DateTime
  notes : Option String
deriving DecidableEq, Repr

structure PurchaseResult where
  success : Bool
  message : String
  updated_items : List InventoryItem
deriving DecidableEq, Repr

structure IngredientInput where
  inventory_id : Nat
  quantity_used : ℚ
deriving DecidableEq, Repr

structure CreateProductionBatchInput where
  product_inventory_id : Nat
  recipe_template_id : Option Nat
  batch_size : ℚ
  unit : String
  estimated_completion_date : Option DateTime
  storage_location : Option String
  ingredients : List IngredientInput
  notes : Option String
deriving DecidableEq, Repr

structure CompleteProductionBatchInput where
  batch_id : Nat
  actual_yield : ℚ
  quality_notes : Option String
deriving DecidableEq, Repr

structure FailProductionBatchInput where
  batch_id : Nat
  reason : String
deriving DecidableEq, Repr

structure ProductionBatchResult where
  success : Bool
  message : String
  batch_id : Option Nat
  batch_number : Option String
deriving DecidableEq, Repr

/-- Reconstructed from the use sites in `create_inventory_item`. -/
structure CreateInventoryItemInput where
  name : String
  category : String
  unit : String
  current_stock : Option ℚ
  reserved_stock : Option ℚ
  reorder_point : Option ℚ
  cost_per_unit : Option ℚ
  default_supplier_id : Option Nat
  shelf_life_days : Option Int
  storage_requirements : Option String
deriving DecidableEq, Repr

/-- Reconstructed from the use sites in `update_inventory_item`. -/
structure UpdateInventoryItemInput where
  id : Nat
  name : Option String
  category : Option String
  unit : Option String
  current_stock : Option ℚ
  reserved_stock : Option ℚ
  reorder_point : Option ℚ
  cost_per_unit : Option ℚ
  default_supplier_id : Option Nat
  shelf_life_days : Option Int
  storage_requirements : Option String
  is_active : Option Bool
deriving DecidableEq, Repr

structure InventoryItemResult where
  success : Bool
  message : String
  item : Option InventoryItem
deriving DecidableEq, Repr

/-! ## Generic state helpers -/

/-- `UPDATE inventory SET ... WHERE id = i`: apply `f` to every row whose
`id` matches (ids are unique in practice, being the primary key). -/
def updateInv (db : DB) (i : Nat) (f : InventoryItem → InventoryItem) : DB :=
  { db with inventory := db.inventory.map (fun it => if it.id == i then f it else it) }

/-- `UPDATE production_batches SET ... WHERE id = i`. -/
def updateBatch (db : DB) (i : Nat) (f : ProductionBatch → ProductionBatch) : DB :=
  { db with production_batches :=
      db.production_batches.map (fun b => if b.id == i then f b else b) }

/-- `INSERT INTO inventory_logs ...` — the movement log is append-only. -/
def appendLog (db : DB) (e : MovementEntry) : DB :=
  { db with inventory_logs := db.inventory_logs ++ [e] }

/-- `INSERT INTO production_batch_ingredients ...`. -/
def insertBatchIngredient (db : DB) (row : ProductionBatchIngredient) : DB :=
  { db with batch_ingredients := db.batch_ingredients ++ [row] }

/-- `INSERT INTO production_batches ... RETURNING id`: the row receives the
next database-generated id. -/
def insertBatch (db : DB) (b : ProductionBatch) : DB :=
  { db with production_batches := db.production_batches ++ [b],
            next_batch_id := db.next_batch_id + 1 }

/-- `INSERT INTO inventory ... RETURNING ...`. -/
def insertItem (db : DB) (it : InventoryItem) : DB :=
  { db with inventory := db.inventory ++ [it],
            next_item_id := db.next_item_id + 1 }

/-- `SELECT ... FROM inventory WHERE id = $1`. -/
def findItem (db : DB) (i : Nat) : Option InventoryItem :=
  db.inventory.find? (fun it => it.id == i)

/-- `SELECT ... FROM inventory WHERE id = $1 AND is_active = true`. -/
def findActiveItem (db : DB) (i : Nat) : Option InventoryItem :=
  db.inventory.find? (fun it => it.id == i && it.is_active)

/-- `SELECT ... FROM production_batches WHERE id = $1`. -/
def findBatch (db : DB) (i : Nat) : Option ProductionBatch :=
  db.production_batches.find? (fun b => b.id == i)

/-- Current stock of item `i`, when the item exists. -/
def stockOf (db : DB) (i : Nat) : Option ℚ :=
  (findItem db i).map (·.current_stock)

/-- Sum of the movement quantities recorded for item `i`. -/
def logSum (logs : List MovementEntry) (i : Nat) : ℚ :=
  ((logs.filter (fun e => e.inventory_id == i)).map (·.quantity)).sum

/-- Ledger/aggregate consistency: every item's cached `current_stock` equals
the sum of its movement quantities. -/
def ledgerConsistent (db : DB) : Prop :=
  ∀ it ∈ db.inventory, it.current_stock = logSum db.inventory_logs it.id

instance (db : DB) : Decidable (ledgerConsistent db) := by
  unfold ledgerConsistent; infer_instance

/-! ## Batch sequencer (`create_production_batch`, step 3) -/

/-- The decimal digit character for `d < 10`. -/
def digitChar (d : Nat) : Char := Char.ofNat (48 + d)

/-- Fuel-driven digit extraction; `fuel = n + 1` always suffices since the
argument strictly shrinks under division by 10. -/
def natDigitsGo : Nat → Nat → List Char
  | 0, _ => []
  | fuel + 1, n =>
    if n < 10 then [digitChar n]
    else natDigitsGo fuel (n / 10) ++ [digitChar (n % 10)]

/-- Decimal digit characters of `n`, most significant first (the standard
rendering used by Rust's `Display` for unsigned values). -/
def natDigits (n : Nat) : List Char := natDigitsGo (n + 1) n

/-- Rust `format!("{:03}", n)` for a natural number: the decimal rendering
left-padded with zeros to width 3. -/
def natPad3 (n : Nat) : String :=
  let ds := natDigits n
  ⟨List.replicate (3 - ds.length) '0' ++ ds⟩

/-- Rust `format!("{:03}", n)` for `i32` values: for negative values the
sign counts towards the width. -/
def fmt03 (n : Int) : String :=
  if n < 0 then
    let ds := natDigits n.natAbs
    ⟨'-' :: (List.replicate (2 - ds.length) '0' ++ ds)⟩
  else natPad3 n.natAbs

/-- The digit run of Rust `str::parse::<i32>` after the optional sign:
fails on an empty run, a non-digit character, or an out-of-`i32`-range
value. -/
def parseDigitsI32 (sign : Int) (ds : List Char) : Option Int :=
  if ds.isEmpty then none
  else if ds.all Char.isDigit then
    let v : Int := sign * ((ds.foldl (fun a c => a * 10 + (c.toNat - 48)) 0 : Nat) : Int)
    if -2147483648 ≤ v ∧ v ≤ 2147483647 then some v else none
  else none

/-- Rust `str::parse::<i32>`: optional sign, then decimal digits. -/
def parseI32 (s : String) : Option Int :=
  match s.data with
  | [] => none
  | c :: cs =>
    if c = '+' then parseDigitsI32 1 cs
    else if c = '-' then parseDigitsI32 (-1) cs
    else parseDigitsI32 1 (c :: cs)

/-- Rust `str::split('-')`: cut the character list at every `'-'`,
keeping empty pieces. -/
def splitDash : List Char → List (List Char)
  | [] => [[]]
  | c :: rest =>
    if c = '-' then [] :: splitDash rest
    else
      match splitDash rest with
      | [] => [[c]]
      | p :: ps => (c :: p) :: ps

/-- SQL `LIKE 'pat%'` (for a wildcard-free `pat`): `pat` is an initial
segment of the tested character list. -/
def isInit : List Char → List Char → Bool
  | [], _ => true
  | _ :: _, [] => false
  | d :: ds, c :: cs => d = c && isInit ds cs

/-- Two's-complement wrap-around of `i32` addition (Rust release mode). -/
def wrapI32 (n : Int) : Int := (n + 2147483648) % 4294967296 - 2147483648

/-- Codepoint-order comparison of character lists: the C collation under
which `ORDER BY batch_number` is modelled (byte order and codepoint order
agree on the ASCII strings involved). -/
def listLtChars : List Char → List Char → Bool
  | [], [] => false
  | [], _ :: _ => true
  | _ :: _, [] => false
  | c :: cs, d :: ds =>
    if c < d then true else if d < c then false else listLtChars cs ds

/-- Codepoint-lexicographic string comparison. -/
def strLt (a b : String) : Bool := listLtChars a.data b.data

/-- `ORDER BY batch_number DESC LIMIT 1`: the greatest string of the list in
the codepoint-lexicographic string order, if any. -/
def maxBatchNumber? : List String → Option String
  | [] => none
  | s :: rest =>
    match maxBatchNumber? rest with
    | none => some s
    | some m => some (if strLt m s then s else m)

/-- The `match last_batch { ... }` sequence computation of
`create_production_batch`: split the latest batch number on `'-'`; with
exactly three parts, parse the third as `i32` (`unwrap_or(0)`) and add one
(wrapping, as Rust release arithmetic does); otherwise default to `1`. -/
def batchSequence (last_batch : Option String) : Int :=
  match last_batch with
  | none => 1
  | some bn =>
    let parts := (splitDash bn.data).map String.mk
    if parts.length == 3 then wrapI32 ((parseI32 (parts.getD 2 "")).getD 0 + 1)
    else 1

/-- The batch sequencer: from the `%Y%m%d` rendering of the current date and
the existing `batch_number` column, compute `BATCH-{ymd}-{seq:03}` where
`seq` comes from the lexicographically latest number with today's stem. -/
def nextBatchNumber (ymd : String) (existing : List String) : String :=
  let stem := "BATCH-" ++ ymd
  let last_batch := maxBatchNumber?
    (existing.filter (fun s => isInit (stem ++ "-").data s.data))
  stem ++ "-" ++ fmt03 (batchSequence last_batch)

/-! ## `create_purchase` -/

/-- The `inventory_logs` row inserted for one purchase line. -/
def mkPurchaseLog (reason : String) (purchase_date : DateTime)
    (l : PurchaseItemInput) : MovementEntry :=
  { inventory_id := l.inventory_id
    movement_type := "purchase"
    quantity := l.quantity
    unit_cost := some l.unit_cost
    reason := reason
    batch_number := l.batch_number
    expiry_date := l.expiry_date
    created_at := purchase_date }

/-- The per-line `UPDATE inventory SET current_stock = current_stock + $1,
cost_per_unit = $2, updated_at = $3 WHERE id = $4`. -/
def applyPurchaseLine (purchase_date : DateTime) (l : PurchaseItemInput)
    (it : InventoryItem) : InventoryItem :=
  { it with
    current_stock := it.current_stock + l.quantity
    cost_per_unit := some l.unit_cost
    updated_at := purchase_date }

/-- The `for item_input in input.items` loop of `create_purchase`: insert the
log row, then update the item (`fetch_one` throws — `none` — when the
`UPDATE ... RETURNING` matches no row), collecting the returned rows. -/
def processPurchaseItems (purchase_date : DateTime) (reason : String) :
    DB → List PurchaseItemInput → Option (DB × List InventoryItem)
  | db, [] => some (db, [])
  | db, l :: rest =>
    let db1 := appendLog db (mkPurchaseLog reason purchase_date l)
    match findItem db1 l.inventory_id with
    | none => none
    | some it =>
      let db2 := updateInv db1 l.inventory_id (applyPurchaseLine purchase_date l)
      match processPurchaseItems purchase_date reason db2 rest with
      | none => none
      | some (db3, items) =>
        some (db3, applyPurchaseLine purchase_date l it :: items)

/-- `create_purchase` (`mutation.rs` lines 20–102). -/
def create_purchase (db : DB) (input : CreatePurchaseInput) (now : DateTime) :
    Option (DB × PurchaseResult) :=
  let purchase_date := input.purchase_date.getD now
  let reason := input.notes.getD "Purchase"
  match processPurchaseItems purchase_date reason db input.items with
  | none => none
  | some (db', updated_items) =>
    some (db',
      { success := true
        message := "Successfully processed purchase of " ++
          toString updated_items.length ++ " items"
        updated_items := updated_items })

/-! ## `create_production_batch` -/

/-- A failure result of the batch operations: `success:false`, a message,
and neither batch id nor batch number. -/
def batchFailure (msg : String) : ProductionBatchResult :=
  { success := false, message := msg, batch_id := none, batch_number := none }

/-- Step 2 of `create_production_batch`: walk the ingredient list in order
and return the first validation failure, if any (`none` = all pass). -/
def validateIngredients (db : DB) : List IngredientInput → Option ProductionBatchResult
  | [] => none
  | ing :: rest =>
    if ing.quantity_used ≤ 0 then
      some (batchFailure "All ingredient quantities must be greater than 0")
    else
      match findActiveItem db ing.inventory_id with
      | none =>
        some (batchFailure ("Ingredient with ID " ++ toString ing.inventory_id ++
          " not found or is inactive"))
      | some inv_item =>
        if inv_item.current_stock < ing.quantity_used then
          some (batchFailure ("Insufficient stock for " ++ inv_item.name ++
            ": need " ++ toString ing.quantity_used ++
            ", have " ++ toString inv_item.current_stock))
        else validateIngredients db rest

/-- Step 5 of `create_production_batch`, one iteration: look up the
ingredient's unit (`fetch_one`, so `none` when absent), insert the
`production_batch_ingredients` row, decrement the stock — unconditionally,
`current_stock = current_stock - $1` — and append the `production_use`
movement with the quantity negated. -/
def consumeIngredient (now : DateTime) (batch_id : Nat) (bn : String)
    (db : DB) (ing : IngredientInput) : Option DB :=
  match findItem db ing.inventory_id with
  | none => none
  | some inv =>
    let db1 := insertBatchIngredient db
      { batch_id := batch_id
        ingredient_inventory_id := ing.inventory_id
        quantity_used := ing.quantity_used
        unit := inv.unit }
    let db2 := updateInv db1 ing.inventory_id (fun it =>
      { it with current_stock := it.current_stock - ing.quantity_used, updated_at := now })
    some (appendLog db2
      { inventory_id := ing.inventory_id
        movement_type := "production_use"
        quantity := -ing.quantity_used
        unit_cost := none
        reason := "Used in production batch " ++ bn
        batch_number := some bn
        expiry_date := none
        created_at := now })

/-- The step-5 loop over all ingredients. -/
def consumeIngredients (now : DateTime) (batch_id : Nat) (bn : String) :
    DB → List IngredientInput → Option DB
  | db, [] => some db
  | db, ing :: rest =>
    match consumeIngredient now batch_id bn db ing with
    | none => none
    | some db' => consumeIngredients now batch_id bn db' rest

/-- `create_production_batch` (`mutation.rs` lines 105–311). -/
def create_production_batch (db : DB) (input : CreateProductionBatchInput)
    (now : DateTime) : Option (DB × ProductionBatchResult) :=
  if input.batch_size ≤ 0 then
    some (db, batchFailure "Batch size must be greater than 0")
  else if input.ingredients.isEmpty then
    some (db, batchFailure "At least one ingredient is required")
  else
    match findActiveItem db input.product_inventory_id with
    | none => some (db, batchFailure "Product not found or is inactive")
    | some _ =>
      match validateIngredients db input.ingredients with
      | some res => some (db, res)
      | none =>
        let bn := nextBatchNumber now.ymd (db.production_batches.map (·.batch_number))
        let batch_id := db.next_batch_id
        let db1 := insertBatch db
          { id := batch_id
            batch_number := bn
            product_inventory_id := input.product_inventory_id
            recipe_template_id := input.recipe_template_id
            batch_size := input.batch_size
            unit := input.unit
            start_date := now
            estimated_completion_date := input.estimated_completion_date
            completion_date := none
            production_date := now
            status := "in_progress"
            production_time_hours := none
            yield_percentage := none
            actual_yield := none
            quality_notes := none
            storage_location := input.storage_location
            notes := input.notes
            updated_at := none }
        match consumeIngredients now batch_id bn db1 input.ingredients with
        | none => none
        | some db2 =>
          some (db2,
            { success := true
              message := "Successfully created production batch " ++ bn ++
                " with " ++ toString input.ingredients.length ++ " ingredients"
              batch_id := some batch_id
              batch_number := some bn })

/-! ## `complete_production_batch` and `fail_production_batch` -/

/-- `complete_production_batch` (`mutation.rs` lines 314–426). -/
def complete_production_batch (db : DB) (input : CompleteProductionBatchInput)
    (now : DateTime) : Option (DB × ProductionBatchResult) :=
  match findBatch db input.batch_id with
  | none => some (db, batchFailure "Production batch not found")
  | some batch =>
    if batch.status ≠ "in_progress" then
      some (db,
        { success := false
          message := "Batch is already " ++ batch.status
          batch_id := none
          batch_number := some batch.batch_number })
    else
      let yield_pct : ℚ :=
        if batch.batch_size > 0 then input.actual_yield / batch.batch_size * 100
        else 100
      let duration_hours : Int := max (now.ts - batch.start_date.ts) 0
      let db1 := updateBatch db input.batch_id (fun b =>
        { b with
          status := "completed"
          completion_date := some now
          actual_yield := some input.actual_yield
          yield_percentage := some yield_pct
          production_time_hours := some (duration_hours : ℚ)
          quality_notes := input.quality_notes
          updated_at := some now })
      let db2 := updateInv db1 batch.product_inventory_id (fun it =>
        { it with current_stock := it.current_stock + input.actual_yield,
                  updated_at := now })
      let db3 := appendLog db2
        { inventory_id := batch.product_inventory_id
          movement_type := "production_output"
          quantity := input.actual_yield
          unit_cost := none
          reason := "Produced in batch " ++ batch.batch_number
          batch_number := some batch.batch_number
          expiry_date := none
          created_at := now }
      some (db3,
        { success := true
          -- The source renders the yield with `{:.1}`; the rendering of the
          -- number is abstracted by `toString` here (no claim observes it).
          message := "Successfully completed production batch " ++
            batch.batch_number ++ ". Yield: " ++ toString yield_pct ++ "%"
          batch_id := some input.batch_id
          batch_number := some batch.batch_number })

/-- `fail_production_batch` (`mutation.rs` lines 429–496). -/
def fail_production_batch (db : DB) (input : FailProductionBatchInput)
    (now : DateTime) : Option (DB × ProductionBatchResult) :=
  match findBatch db input.batch_id with
  | none => some (db, batchFailure "Production batch not found")
  | some batch =>
    if batch.status ≠ "in_progress" then
      some (db,
        { success := false
          message := "Batch is already " ++ batch.status
          batch_id := none
          batch_number := some batch.batch_number })
    else
      let db1 := updateBatch db input.batch_id (fun b =>
        { b with
          status := "failed"
          completion_date := some now
          quality_notes := some input.reason
          updated_at := some now })
      some (db1,
        { success := true
          message := "Production batch " ++ batch.batch_number ++ " marked as failed"
          batch_id := some input.batch_id
          batch_number := some batch.batch_number })

/-! ## `create_inventory_item` and `update_inventory_item` -/

/-- `create_inventory_item` (`mutation.rs` lines 499–589). -/
def create_inventory_item (db : DB) (input : CreateInventoryItemInput)
    (now : DateTime) : Option (DB × InventoryItemResult) :=
  match db.inventory.find? (fun it => it.name == input.name && it.is_active) with
  | some _ =>
    some (db,
      { success := false
        message := "An item with the name '" ++ input.name ++ "' already exists"
        item := none })
  | none =>
    let supplier_ok :=
      match input.default_supplier_id with
      | none => true
      | some sid => (db.suppliers.find? (fun s => s == sid)).isSome
    if !supplier_ok then
      some (db, { success := false, message := "Supplier not found", item := none })
    else
      let item : InventoryItem :=
        { id := db.next_item_id
          name := input.name
          category := input.category
          unit := input.unit
          current_stock := input.current_stock.getD 0
          reserved_stock := input.reserved_stock.getD 0
          reorder_point := input.reorder_point.getD 0
          cost_per_unit := input.cost_per_unit
          default_supplier_id := input.default_supplier_id
          shelf_life_days := input.shelf_life_days
          storage_requirements := input.storage_requirements
          is_active := true
          created_at := now
          updated_at := now }
      some (insertItem db item,
        { success := true
          message := "Successfully created '" ++ item.name ++ "'"
          item := some item })

/-- The `COALESCE` update of `update_inventory_item`. -/
def coalesceItem (input : UpdateInventoryItemInput) (now : DateTime)
    (it : InventoryItem) : InventoryItem :=
  { it with
    name := input.name.getD it.name
    category := input.category.getD it.category
    unit := input.unit.getD it.unit
    current_stock := input.current_stock.getD it.current_stock
    reserved_stock := input.reserved_stock.getD it.reserved_stock
    reorder_point := input.reorder_point.getD it.reorder_point
    cost_per_unit :=
      match input.cost_per_unit with
      | some c => some c
      | none => it.cost_per_unit
    default_supplier_id :=
      match input.default_supplier_id with
      | some s => some s
      | none => it.default_supplier_id
    shelf_life_days :=
      match input.shelf_life_days with
      | some d => some d
      | none => it.shelf_life_days
    storage_requirements :=
      match input.storage_requirements with
      | some r => some r
      | none => it.storage_requirements
    is_active := input.is_active.getD it.is_active
    updated_at := now }

/-- `update_inventory_item` (`mutation.rs` lines 592–711).  Note that it can
overwrite `current_stock` directly, without touching `inventory_logs`. -/
def update_inventory_item (db : DB) (input : UpdateInventoryItemInput)
    (now : DateTime) : Option (DB × InventoryItemResult) :=
  match findItem db input.id with
  | none =>
    some (db, { success := false, message := "Inventory item not found", item := none })
  | some old =>
    let name_conflict : Bool :=
      match input.name with
      | none => false
      | some new_name =>
        (db.inventory.find? (fun it =>
          it.name == new_name && it.id != input.id && it.is_active)).isSome
    if name_conflict then
      some (db,
        { success := false
          message := "An item with the name '" ++ input.name.getD "" ++ "' already exists"
          item := none })
    else
      let supplier_ok :=
        match input.default_supplier_id with
        | none => true
        | some sid => (db.suppliers.find? (fun s => s == sid)).isSome
      if !supplier_ok then
        some (db, { success := false, message := "Supplier not found", item := none })
      else
        let db' := updateInv db input.id (coalesceItem input now)
        some (db',
          { success := true
            message := "Successfully updated '" ++ (coalesceItem input now old).name ++ "'"
            item := some (coalesceItem input now old) })

/-! ## The operations exposed by the engine -/

/-- One committed invocation of a mutation touching inventory state. -/
inductive Op where
  | purchase (input : CreatePurchaseInput) (now : DateTime)
  | createBatch (input : CreateProductionBatchInput) (now : DateTime)
  | completeBatch (input : CompleteProductionBatchInput) (now : DateTime)
  | failBatch (input : FailProductionBatchInput) (now : DateTime)
  | createItem (input : CreateInventoryItemInput) (now : DateTime)
  | updateItem (input : UpdateInventoryItemInput) (now : DateTime)
deriving Repr

/-- The four ledger operations of the engine (§6 of the design). -/
def Op.isLedger : Op → Bool
  | .purchase .. | .createBatch .. | .completeBatch .. | .failBatch .. => true
  | .createItem .. | .updateItem .. => false

/-- Run one operation: a thrown error (`none`) rolls the transaction back,
so the caller keeps the previous state. -/
def runOp (db : DB) (op : Op) : DB :=
  match op with
  | .purchase input now => ((create_purchase db input now).map (·.1)).getD db
  | .createBatch input now => ((create_production_batch db input now).map (·.1)).getD db
  | .completeBatch input now => ((complete_production_batch db input now).map (·.1)).getD db
  | .failBatch input now => ((fail_production_batch db input now).map (·.1)).getD db
  | .createItem input now => ((create_inventory_item db input now).map (·.1)).getD db
  | .updateItem input now => ((update_inventory_item db input now).map (·.1)).getD db

/-! ## Concrete test fixtures -/

/-- A fixed "now": instant 100 (hours), date 2026-10-12. -/
def now0 : DateTime := { ts := 100, ymd := "20261012" }

def t0 : DateTime := { ts := 0, ymd := "20260101" }

/-- Active raw-ingredient item with 10 in stock. -/
def itemA : InventoryItem :=
  { id := 1, name := "Cabbage", category := "produce", unit := "kg"
    current_stock := 10, reserved_stock := 0, reorder_point := 0
    cost_per_unit := none, default_supplier_id := none, shelf_life_days := none
    storage_requirements := none, is_active := true, created_at := t0, updated_at := t0 }

/-- An inactive item with 3 in stock. -/
def itemInactive : InventoryItem :=
  { id := 2, name := "Old Brine", category := "liquid", unit := "l"
    current_stock := 3, reserved_stock := 0, reorder_point := 0
    cost_per_unit := none, default_supplier_id := none, shelf_life_days := none
    storage_requirements := none, is_active := false, created_at := t0, updated_at := t0 }

/-- Active item with 0 in stock. -/
def itemSalt : InventoryItem :=
  { id := 3, name := "Salt", category := "mineral", unit := "kg"
    current_stock := 0, reserved_stock := 0, reorder_point := 0
    cost_per_unit := none, default_supplier_id := none, shelf_life_days := none
    storage_requirements := none, is_active := true, created_at := t0, updated_at := t0 }

/-- Active item with only 5 in stock. -/
def itemLow : InventoryItem :=
  { id := 1, name := "Cabbage", category := "produce", unit := "kg"
    current_stock := 5, reserved_stock := 0, reorder_point := 0
    cost_per_unit := none, default_supplier_id := none, shelf_life_days := none
    storage_requirements := none, is_active := true, created_at := t0, updated_at := t0 }

def batchDone : ProductionBatch :=
  { id := 1, batch_number := "BATCH-20261010-001", product_inventory_id := 1
    recipe_template_id := none, batch_size := 100, unit := "kg"
    start_date := { ts := 30, ymd := "20261010" }, estimated_completion_date := none
    completion_date := some { ts := 40, ymd := "20261010" }
    production_date := { ts := 30, ymd := "20261010" }, status := "completed"
    production_time_hours := some 10, yield_percentage := some 95
    actual_yield := some 95, quality_notes := none, storage_location := none
    notes := none, updated_at := none }

def batchGone : ProductionBatch :=
  { id := 2, batch_number := "BATCH-20261010-002", product_inventory_id := 1
    recipe_template_id := none, batch_size := 50, unit := "kg"
    start_date := { ts := 35, ymd := "20261010" }, estimated_completion_date := none
    completion_date := some { ts := 45, ymd := "20261010" }
    production_date := { ts := 35, ymd := "20261010" }, status := "failed"
    production_time_hours := none, yield_percentage := none
    actual_yield := none, quality_notes := some "mold", storage_location := none
    notes := none, updated_at := none }

def batchProg : ProductionBatch :=
  { id := 3, batch_number := "BATCH-20261011-001", product_inventory_id := 1
    recipe_template_id := none, batch_size := 100, unit := "kg"
    start_date := { ts := 40, ymd := "20261011" }, estimated_completion_date := none
    completion_date := none
    production_date := { ts := 40, ymd := "20261011" }, status := "in_progress"
    production_time_hours := none, yield_percentage := none
    actual_yield := none, quality_notes := none, storage_location := none
    notes := none, updated_at := none }

/-- Fixture with active/inactive items and batches in all three states. -/
def dbFx : DB :=
  { inventory := [itemA, itemInactive, itemSalt]
    inventory_logs := []
    production_batches := [batchDone, batchGone, batchProg]
    batch_ingredients := []
    suppliers := [7]
    next_item_id := 4
    next_batch_id := 4 }

/-- Fixture with a single low-stock item. -/
def dbLow : DB :=
  { inventory := [itemLow]
    inventory_logs := []
    production_batches := []
    batch_ingredients := []
    suppliers := [7]
    next_item_id := 2
    next_batch_id := 1 }

/-- Ledger-consistent starting state: one active item with zero stock and an
empty movement log. -/
def dbZero : DB :=
  { inventory := [itemSalt]
    inventory_logs := []
    production_batches := []
    batch_ingredients := []
    suppliers := [7]
    next_item_id := 4
    next_batch_id := 1 }

/-- Item-creation input that seeds a nonzero `current_stock`. -/
def ciStock5 : CreateInventoryItemInput :=
  { name := "Ginger", category := "produce", unit := "kg"
    current_stock := some 5, reserved_stock := none, reorder_point := none
    cost_per_unit := none, default_supplier_id := none, shelf_life_days := none
    storage_requirements := none }

/-- Item-update input that overwrites `current_stock` directly. -/
def uiStock7 : UpdateInventoryItemInput :=
  { id := 3, name := none, category := none, unit := none
    current_stock := some 7, reserved_stock := none, reorder_point := none
    cost_per_unit := none, default_supplier_id := none, shelf_life_days := none
    storage_requirements := none, is_active := none }

/-- Purchase whose only line targets the inactive item. -/
def pInactive : CreatePurchaseInput :=
  { supplier_id := 7, items := [⟨2, 5, 2, none, none⟩]
    purchase_date := none, notes := none }

/-- Purchase whose only line targets a nonexistent item id. -/
def pMissing : CreatePurchaseInput :=
  { supplier_id := 7, items := [⟨99, 5, 2, none, none⟩]
    purchase_date := none, notes := none }

/-- Purchase with a negative quantity. -/
def pNeg : CreatePurchaseInput :=
  { supplier_id := 7, items := [⟨1, -10, 2, none, none⟩]
    purchase_date := none, notes := none }

/-- Two-line purchase on distinct existing items. -/
def pTwo : CreatePurchaseInput :=
  { supplier_id := 7, items := [⟨1, 5, 2, none, none⟩, ⟨3, 4, 3, none, none⟩]
    purchase_date := none, notes := none }

/-- Purchase of 10 units at cost 2 for item 3. -/
def pPlus : CreatePurchaseInput :=
  { supplier_id := 7, items := [⟨3, 10, 2, none, none⟩]
    purchase_date := none, notes := none }

/-- Batch creation consuming 12 units of the low-stock item. -/
def bTooMuch : CreateProductionBatchInput :=
  { product_inventory_id := 1, recipe_template_id := none, batch_size := 10
    unit := "kg", estimated_completion_date := none, storage_location := none
    ingredients := [{ inventory_id := 1, quantity_used := 12 }], notes := none }

/-- Batch creation consuming 3 units of item 3. -/
def bUse : CreateProductionBatchInput :=
  { product_inventory_id := 3, recipe_template_id := none, batch_size := 10
    unit := "kg", estimated_completion_date := none, storage_location := none
    ingredients := [{ inventory_id := 3, quantity_used := 3 }], notes := none }

/-- A sequence built from all four ledger operations (run from `dbZero`). -/
def opsLedger : List Op :=
  [Op.purchase pPlus now0,
   Op.createBatch bUse now0,
   Op.completeBatch { batch_id := 1, actual_yield := 9, quality_notes := none } now0,
   Op.failBatch { batch_id := 2, reason := "missing batch" } now0]

/-! ## Small reduction lemmas for the state helpers -/

@[simp] theorem appendLog_inventory (db : DB) (e : MovementEntry) :
    (appendLog db e).inventory = db.inventory := rfl

@[simp] theorem appendLog_logs (db : DB) (e : MovementEntry) :
    (appendLog db e).inventory_logs = db.inventory_logs ++ [e] := rfl

@[simp] theorem appendLog_batches (db : DB) (e : MovementEntry) :
    (appendLog db e).production_batches = db.production_batches := rfl

@[simp] theorem appendLog_ingredients (db : DB) (e : MovementEntry) :
    (appendLog db e).batch_ingredients = db.batch_ingredients := rfl

@[simp] theorem updateInv_logs (db : DB) (i : Nat) (f : InventoryItem → InventoryItem) :
    (updateInv db i f).inventory_logs = db.inventory_logs := rfl

@[simp] theorem updateInv_batches (db : DB) (i : Nat) (f : InventoryItem → InventoryItem) :
    (updateInv db i f).production_batches = db.production_batches := rfl

@[simp] theorem updateInv_ingredients (db : DB) (i : Nat) (f : InventoryItem → InventoryItem) :
    (updateInv db i f).batch_ingredients = db.batch_ingredients := rfl

@[simp] theorem updateInv_inventory (db : DB) (i : Nat) (f : InventoryItem → InventoryItem) :
    (updateInv db i f).inventory =
      db.inventory.map (fun it => if it.id == i then f it else it) := rfl

@[simp] theorem updateBatch_inventory (db : DB) (i : Nat) (f : ProductionBatch → ProductionBatch) :
    (updateBatch db i f).inventory = db.inventory := rfl

@[simp] theorem updateBatch_logs (db : DB) (i : Nat) (f : ProductionBatch → ProductionBatch) :
    (updateBatch db i f).inventory_logs = db.inventory_logs := rfl

@[simp] theorem findItem_appendLog (db : DB) (e : MovementEntry) (j : Nat) :
    findItem (appendLog db e) j = findItem db j := rfl

@[simp] theorem findItem_updateBatch (db : DB) (i : Nat)
    (f : ProductionBatch → ProductionBatch) (j : Nat) :
    findItem (updateBatch db i f) j = findItem db j := rfl

@[simp] theorem findBatch_appendLog (db : DB) (e : MovementEntry) (j : Nat) :
    findBatch (appendLog db e) j = findBatch db j := rfl

@[simp] theorem findBatch_updateInv (db : DB) (i : Nat)
    (f : InventoryItem → InventoryItem) (j : Nat) :
    findBatch (updateInv db i f) j = findBatch db j := rfl

@[simp] theorem insertBatchIngredient_inventory (db : DB) (row : ProductionBatchIngredient) :
    (insertBatchIngredient db row).inventory = db.inventory := rfl

@[simp] theorem insertBatchIngredient_logs (db : DB) (row : ProductionBatchIngredient) :
    (insertBatchIngredient db row).inventory_logs = db.inventory_logs := rfl

@[simp] theorem findItem_insertBatchIngredient (db : DB) (row : ProductionBatchIngredient)
    (j : Nat) : findItem (insertBatchIngredient db row) j = findItem db j := rfl

@[simp] theorem insertBatch_inventory (db : DB) (b : ProductionBatch) :
    (insertBatch db b).inventory = db.inventory := rfl

@[simp] theorem insertBatch_logs (db : DB) (b : ProductionBatch) :
    (insertBatch db b).inventory_logs = db.inventory_logs := rfl

@[simp] theorem findItem_insertBatch (db : DB) (b : ProductionBatch) (j : Nat) :
    findItem (insertBatch db b) j = findItem db j := rfl

/-! ## Generic lemmas about row updates -/

theorem find?_map_same {α : Type} (l : List α) (p : α → Bool) (f : α → α)
    (hp : ∀ x, p (f x) = p x) :
    (l.map (fun x => if p x then f x else x)).find? p = (l.find? p).map f := by
  induction l with
  | nil => rfl
  | cons x xs ih =>
    by_cases hx : p x = true
    · simp only [List.map_cons, hx, if_true, List.find?_cons_of_pos, hp x, Option.map_some']
    · have hx' : p x = false := by revert hx; cases p x <;> simp
      simp only [List.map_cons, hx', if_neg, Bool.false_eq_true, not_false_iff,
        List.find?_cons_of_neg, ih]

theorem find?_map_other {α : Type} (l : List α) (p q : α → Bool) (f : α → α)
    (hq : ∀ x, q (f x) = q x) (hpq : ∀ x, q x = true → p x = false) :
    (l.map (fun x => if p x then f x else x)).find? q = l.find? q := by
  induction l with
  | nil => rfl
  | cons x xs ih =>
    rw [List.map_cons]
    by_cases hx : q x = true
    · have hpx : p x = false := hpq x hx
      rw [if_neg (by simp [hpx]), List.find?_cons_of_pos _ hx, List.find?_cons_of_pos _ hx]
    · have hx' : q x = false := by revert hx; cases q x <;> simp
      by_cases hpx : p x = true
      · rw [if_pos hpx, List.find?_cons_of_neg _ (by simp [hq x, hx']),
          List.find?_cons_of_neg _ (by simp [hx']), ih]
      · rw [if_neg hpx, List.find?_cons_of_neg _ (by simp [hx']),
          List.find?_cons_of_neg _ (by simp [hx']), ih]

theorem findItem_updateInv_self (db : DB) (i : Nat) (f : InventoryItem → InventoryItem)
    (hf : ∀ it, (f it).id = it.id) :
    findItem (updateInv db i f) i = (findItem db i).map f := by
  unfold findItem updateInv
  exact find?_map_same _ _ _ (fun x => by simp [hf x])

theorem findItem_updateInv_other (db : DB) (i j : Nat) (f : InventoryItem → InventoryItem)
    (hf : ∀ it, (f it).id = it.id) (hij : j ≠ i) :
    findItem (updateInv db i f) j = findItem db j := by
  unfold findItem updateInv
  refine find?_map_other _ _ _ _ (fun x => by simp [hf x]) (fun x hx => ?_)
  simp only [beq_iff_eq] at hx
  simp only [hx, beq_eq_false_iff_ne, ne_eq]
  exact hij

theorem findItem_isSome_updateInv (db : DB) (i j : Nat) (f : InventoryItem → InventoryItem)
    (hf : ∀ it, (f it).id = it.id) :
    (findItem (updateInv db i f) j).isSome = (findItem db j).isSome := by
  by_cases hij : j = i
  · subst hij; rw [findItem_updateInv_self db j f hf]; cases findItem db j <;> rfl
  · rw [findItem_updateInv_other db i j f hf hij]

theorem findBatch_updateBatch_self (db : DB) (i : Nat) (f : ProductionBatch → ProductionBatch)
    (hf : ∀ b, (f b).id = b.id) :
    findBatch (updateBatch db i f) i = (findBatch db i).map f := by
  unfold findBatch updateBatch
  exact find?_map_same _ _ _ (fun x => by simp [hf x])

/-! ## Movement-sum lemmas -/

theorem logSum_append (logs : List MovementEntry) (e : MovementEntry) (i : Nat) :
    logSum (logs ++ [e]) i =
      logSum logs i + (if e.inventory_id == i then e.quantity else 0) := by
  unfold logSum
  rw [List.filter_append]
  by_cases he : (e.inventory_id == i) = true
  · simp [he]
  · have he' : (e.inventory_id == i) = false := by revert he; cases e.inventory_id == i <;> simp
    simp [he']

theorem ledgerConsistent_of_eq (db db' : DB) (hinv : db'.inventory = db.inventory)
    (hlog : db'.inventory_logs = db.inventory_logs) (h : ledgerConsistent db) :
    ledgerConsistent db' := by
  intro it hit
  rw [hinv] at hit
  rw [hlog]
  exact h it hit

/-- The key preservation step: applying a stock delta `q` to item `i` while
appending a movement entry for item `i` with quantity `q` keeps the ledger
consistent. -/
theorem ledgerConsistent_bump (db db' : DB) (i : Nat) (q : ℚ) (e : MovementEntry)
    (f : InventoryItem → InventoryItem)
    (hf_id : ∀ it, (f it).id = it.id)
    (hf_st : ∀ it, (f it).current_stock = it.current_stock + q)
    (he_i : e.inventory_id = i) (he_q : e.quantity = q)
    (hinv : db'.inventory = db.inventory.map (fun it => if it.id == i then f it else it))
    (hlog : db'.inventory_logs = db.inventory_logs ++ [e])
    (h : ledgerConsistent db) : ledgerConsistent db' := by
  intro it' hit'
  rw [hinv] at hit'
  obtain ⟨it, hit, rfl⟩ := List.mem_map.1 hit'
  rw [hlog, logSum_append]
  by_cases hid : (it.id == i) = true
  · have hid' : it.id = i := by simpa using hid
    rw [if_pos hid, hf_id, hf_st, hid', he_i]
    rw [if_pos (beq_self_eq_true i), he_q, h it hit, hid']
  · have hne : it.id ≠ i := by simpa using hid
    rw [if_neg hid, he_i]
    rw [if_neg (by simp [Ne.symm hne] : ¬ ((i == it.id) = true)), add_zero]
    exact h it hit

/-! ## Lemmas about `create_purchase` -/

theorem applyPurchaseLine_id (pd : DateTime) (l : PurchaseItemInput) (it : InventoryItem) :
    (applyPurchaseLine pd l it).id = it.id := rfl

/-- The per-line state change of `create_purchase` never changes which item
ids are present. -/
theorem findItem_purchaseStep_none (db : DB) (e : MovementEntry) (i : Nat)
    (f : InventoryItem → InventoryItem) (hf : ∀ it, (f it).id = it.id) (j : Nat) :
    (findItem (updateInv (appendLog db e) i f) j = none) ↔ (findItem db j = none) := by
  rw [← Option.not_isSome_iff_eq_none, ← Option.not_isSome_iff_eq_none,
    findItem_isSome_updateInv _ _ _ _ hf, findItem_appendLog]

/-- `create_purchase` throws (`none`) exactly when some line's item id does
not resolve. -/
theorem processPurchaseItems_none_iff (pd : DateTime) (r : String) :
    ∀ (db : DB) (lines : List PurchaseItemInput),
      processPurchaseItems pd r db lines = none ↔
        ∃ l ∈ lines, findItem db l.inventory_id = none := by
  intro db lines
  induction lines generalizing db with
  | nil => simp [processPurchaseItems]
  | cons l rest ih =>
    rw [processPurchaseItems]
    simp only [findItem_appendLog]
    cases hfind : findItem db l.inventory_id with
    | none =>
      constructor
      · intro _
        exact ⟨l, List.mem_cons_self l rest, hfind⟩
      · intro _
        rfl
    | some it =>
      have hstep := fun j => findItem_purchaseStep_none db (mkPurchaseLog r pd l)
        l.inventory_id (applyPurchaseLine pd l) (fun _ => rfl) j
      cases hrec : processPurchaseItems pd r
          (updateInv (appendLog db (mkPurchaseLog r pd l)) l.inventory_id
            (applyPurchaseLine pd l)) rest with
      | none =>
        constructor
        · intro _
          obtain ⟨l', hl', hnone⟩ := (ih _).1 hrec
          exact ⟨l', List.mem_cons_of_mem l hl', (hstep l'.inventory_id).1 hnone⟩
        · intro _
          rfl
      | some p =>
        constructor
        · intro h; exact absurd h (by simp)
        · rintro ⟨l', hl', hnone⟩
          rcases List.mem_cons.1 hl' with h | h
          · rw [h] at hnone; rw [hnone] at hfind; cases hfind
          · have : processPurchaseItems pd r _ rest = none :=
              (ih _).2 ⟨l', h, (hstep l'.inventory_id).2 hnone⟩
            rw [hrec] at this; cases this

/-- Frame and shape facts about a successful purchase loop: the appended log
rows, the result length, untouched tables, and untouched items. -/
theorem processPurchaseItems_spec (pd : DateTime) (r : String) :
    ∀ (db : DB) (lines : List PurchaseItemInput) (db' : DB) (items : List InventoryItem),
      processPurchaseItems pd r db lines = some (db', items) →
      db'.inventory_logs = db.inventory_logs ++ lines.map (mkPurchaseLog r pd) ∧
      items.length = lines.length ∧
      db'.production_batches = db.production_batches ∧
      db'.batch_ingredients = db.batch_ingredients ∧
      (∀ j, (∀ l ∈ lines, l.inventory_id ≠ j) → findItem db' j = findItem db j) := by
  intro db lines
  induction lines generalizing db with
  | nil =>
    intro db' items h
    rw [processPurchaseItems] at h
    cases h
    simp
  | cons l rest ih =>
    intro db' items h
    rw [processPurchaseItems] at h
    simp only [findItem_appendLog] at h
    cases hfind : findItem db l.inventory_id with
    | none => rw [hfind] at h; cases h
    | some it =>
      rw [hfind] at h
      set db2 := updateInv (appendLog db (mkPurchaseLog r pd l)) l.inventory_id
        (applyPurchaseLine pd l) with hdb2
      cases hrec : processPurchaseItems pd r db2 rest with
      | none => rw [hrec] at h; cases h
      | some p =>
        rw [hrec] at h
        obtain ⟨db3, items3⟩ := p
        cases h
        obtain ⟨hlogs, hlen, hbat, hing, hframe⟩ := ih db2 _ _ hrec
        refine ⟨?_, by simpa using hlen, by simpa using hbat, by simpa using hing, ?_⟩
        · rw [hlogs, hdb2]
          simp [List.append_assoc]
        · intro j hj
          have hl : l.inventory_id ≠ j := hj l (List.mem_cons_self l rest)
          rw [hframe j (fun l' hl' => hj l' (List.mem_cons_of_mem l hl')), hdb2,
            findItem_updateInv_other _ _ _ (applyPurchaseLine pd l) (fun _ => rfl)
              (Ne.symm hl), findItem_appendLog]

/-- A successful purchase loop preserves ledger consistency: each line logs
exactly the delta it applies. -/
theorem processPurchaseItems_consistent (pd : DateTime) (r : String) :
    ∀ (db : DB) (lines : List PurchaseItemInput) (db' : DB) (items : List InventoryItem),
      processPurchaseItems pd r db lines = some (db', items) →
      ledgerConsistent db → ledgerConsistent db' := by
  intro db lines
  induction lines generalizing db with
  | nil =>
    intro db' items h hc
    rw [processPurchaseItems] at h
    cases h
    exact hc
  | cons l rest ih =>
    intro db' items h hc
    rw [processPurchaseItems] at h
    simp only [findItem_appendLog] at h
    cases hfind : findItem db l.inventory_id with
    | none => rw [hfind] at h; cases h
    | some it =>
      rw [hfind] at h
      set db2 := updateInv (appendLog db (mkPurchaseLog r pd l)) l.inventory_id
        (applyPurchaseLine pd l) with hdb2
      cases hrec : processPurchaseItems pd r db2 rest with
      | none => rw [hrec] at h; cases h
      | some p =>
        rw [hrec] at h
        obtain ⟨db3, items3⟩ := p
        cases h
        refine ih db2 _ _ hrec ?_
        exact ledgerConsistent_bump db db2 l.inventory_id l.quantity
          (mkPurchaseLog r pd l) (applyPurchaseLine pd l) (fun _ => rfl) (fun _ => rfl)
          rfl rfl (by rw [hdb2]; simp) (by rw [hdb2]; simp) hc

/-- With pairwise-distinct line ids, each line's item ends up exactly
incremented by its quantity, with `cost_per_unit` overwritten. -/
theorem processPurchaseItems_stock (pd : DateTime) (r : String) :
    ∀ (db : DB) (lines : List PurchaseItemInput) (db' : DB) (items : List InventoryItem),
      lines.Pairwise (fun a b => a.inventory_id ≠ b.inventory_id) →
      processPurchaseItems pd r db lines = some (db', items) →
      ∀ l ∈ lines, findItem db' l.inventory_id =
        (findItem db l.inventory_id).map (applyPurchaseLine pd l) := by
  intro db lines
  induction lines generalizing db with
  | nil =>
    intro db' items _ _ l hl
    cases hl
  | cons l rest ih =>
    intro db' items hpw h l' hl'
    rw [processPurchaseItems] at h
    simp only [findItem_appendLog] at h
    cases hfind : findItem db l.inventory_id with
    | none => rw [hfind] at h; cases h
    | some it =>
      rw [hfind] at h
      set db2 := updateInv (appendLog db (mkPurchaseLog r pd l)) l.inventory_id
        (applyPurchaseLine pd l) with hdb2
      cases hrec : processPurchaseItems pd r db2 rest with
      | none => rw [hrec] at h; cases h
      | some p =>
        rw [hrec] at h
        obtain ⟨db3, items3⟩ := p
        cases h
        have hpw_head := (List.pairwise_cons.1 hpw).1
        have hpw_rest := (List.pairwise_cons.1 hpw).2
        rcases List.mem_cons.1 hl' with hcase | hcase
        · subst hcase
          have hframe := (processPurchaseItems_spec pd r db2 rest _ _ hrec).2.2.2.2
          rw [hframe l'.inventory_id (fun b hb => Ne.symm (hpw_head b hb)), hdb2,
            findItem_updateInv_self _ _ (applyPurchaseLine pd l') (fun _ => rfl),
            findItem_appendLog]
        · have hne : l'.inventory_id ≠ l.inventory_id :=
            Ne.symm (hpw_head l' hcase)
          rw [ih db2 _ _ hpw_rest hrec l' hcase, hdb2,
            findItem_updateInv_other _ _ _ (applyPurchaseLine pd l) (fun _ => rfl) hne,
            findItem_appendLog]

/-! ## Lemmas about `create_production_batch` -/

theorem append_ne_empty (a b : String) (h : a ≠ "") : a ++ b ≠ "" := by
  intro he
  apply h
  have hd := congrArg String.data he
  rw [String.data_append] at hd
  have ha : a.data = [] := (List.append_eq_nil.1 hd).1
  cases a
  simp only at ha
  rw [ha]

theorem append3_ne_empty (a b c : String) (h : a ≠ "") : a ++ b ++ c ≠ "" :=
  append_ne_empty _ _ (append_ne_empty _ _ h)

theorem append5_ne_empty (a b c d e : String) (h : a ≠ "") :
    a ++ b ++ c ++ d ++ e ≠ "" :=
  append_ne_empty _ _ (append_ne_empty _ _ (append3_ne_empty _ _ _ h))

theorem append6_ne_empty (a b c d e f : String) (h : a ≠ "") :
    a ++ b ++ c ++ d ++ e ++ f ≠ "" :=
  append_ne_empty _ _ (append5_ne_empty _ _ _ _ _ h)

/-- Every early return of the validation loop is a structured failure with a
nonempty message and no batch id / number. -/
theorem validateIngredients_some (db : DB) :
    ∀ (ings : List IngredientInput) (r : ProductionBatchResult),
      validateIngredients db ings = some r →
      r.success = false ∧ r.batch_id = none ∧ r.batch_number = none ∧ r.message ≠ "" := by
  intro ings
  induction ings with
  | nil => intro r h; cases h
  | cons ing rest ih =>
    intro r h
    rw [validateIngredients] at h
    by_cases hq : ing.quantity_used ≤ 0
    · rw [if_pos hq] at h
      cases h
      exact ⟨rfl, rfl, rfl, by decide⟩
    · rw [if_neg hq] at h
      cases hfa : findActiveItem db ing.inventory_id with
      | none =>
        simp only [hfa] at h
        cases h
        exact ⟨rfl, rfl, rfl, append3_ne_empty _ _ _ (by decide)⟩
      | some it =>
        simp only [hfa] at h
        by_cases hst : it.current_stock < ing.quantity_used
        · rw [if_pos hst] at h
          cases h
          exact ⟨rfl, rfl, rfl, append6_ne_empty _ _ _ _ _ _ (by decide)⟩
        · rw [if_neg hst] at h
          exact ih r h

/-- When the validation loop passes, every ingredient has a positive
quantity and an active item with sufficient stock. -/
theorem validateIngredients_none (db : DB) :
    ∀ ings, validateIngredients db ings = none →
      ∀ ing ∈ ings, 0 < ing.quantity_used ∧
        ∃ it, findActiveItem db ing.inventory_id = some it ∧
          ing.quantity_used ≤ it.current_stock := by
  intro ings
  induction ings with
  | nil => intro h ing hing; cases hing
  | cons ing0 rest ih =>
    intro h ing hing
    rw [validateIngredients] at h
    by_cases hq : ing0.quantity_used ≤ 0
    · rw [if_pos hq] at h; cases h
    · rw [if_neg hq] at h
      cases hfa : findActiveItem db ing0.inventory_id with
      | none => simp only [hfa] at h; cases h
      | some it0 =>
        simp only [hfa] at h
        by_cases hst : it0.current_stock < ing0.quantity_used
        · rw [if_pos hst] at h; cases h
        · rw [if_neg hst] at h
          rcases List.mem_cons.1 hing with hcase | hcase
          · subst hcase
            exact ⟨lt_of_not_le hq, it0, hfa, le_of_not_lt hst⟩
          · exact ih h ing hcase

/-- An active-item lookup success implies a plain lookup success. -/
theorem findItem_isSome_of_findActiveItem (db : DB) (i : Nat) (it : InventoryItem)
    (h : findActiveItem db i = some it) : (findItem db i).isSome := by
  unfold findActiveItem at h
  unfold findItem
  rw [List.find?_isSome]
  have hmem := List.mem_of_find?_eq_some h
  have hpred := List.find?_some h
  exact ⟨it, hmem, by simp only [Bool.and_eq_true] at hpred; exact hpred.1⟩

/-- One consumption step never changes which item ids resolve. -/
theorem findItem_isSome_consumeIngredient (now : DateTime) (bid : Nat) (bn : String)
    (db db' : DB) (ing : IngredientInput)
    (h : consumeIngredient now bid bn db ing = some db') (j : Nat) :
    (findItem db' j).isSome = (findItem db j).isSome := by
  rw [consumeIngredient] at h
  cases hfind : findItem db ing.inventory_id with
  | none => rw [hfind] at h; cases h
  | some inv =>
    rw [hfind] at h
    cases h
    simp only [findItem_appendLog]
    rw [findItem_isSome_updateInv _ _ _
      (fun it => { it with current_stock := it.current_stock - ing.quantity_used,
                           updated_at := now }) (fun _ => rfl)]
    simp only [findItem_insertBatchIngredient]

/-- The consumption loop succeeds whenever every ingredient id resolves. -/
theorem consumeIngredients_isSome (now : DateTime) (bid : Nat) (bn : String) :
    ∀ (db : DB) (ings : List IngredientInput),
      (∀ ing ∈ ings, (findItem db ing.inventory_id).isSome) →
      (consumeIngredients now bid bn db ings).isSome := by
  intro db ings
  induction ings generalizing db with
  | nil => intro _; rw [consumeIngredients]; rfl
  | cons ing rest ih =>
    intro h
    rw [consumeIngredients]
    cases hstep : consumeIngredient now bid bn db ing with
    | none =>
      rw [consumeIngredient] at hstep
      have hhead := h ing (List.mem_cons_self ing rest)
      cases hfind : findItem db ing.inventory_id with
      | none => rw [hfind] at hhead; cases hhead
      | some inv =>
        simp only [hfind] at hstep
        cases hstep
    | some db1 =>
      refine ih db1 (fun ing' hing' => ?_)
      rw [findItem_isSome_consumeIngredient now bid bn db db1 ing hstep ing'.inventory_id]
      exact h ing' (List.mem_cons_of_mem ing hing')

/-- One consumption step preserves ledger consistency: the unconditional
stock decrement is logged with exactly the negated quantity. -/
theorem consumeIngredient_consistent (now : DateTime) (bid : Nat) (bn : String)
    (db db' : DB) (ing : IngredientInput)
    (h : consumeIngredient now bid bn db ing = some db')
    (hc : ledgerConsistent db) : ledgerConsistent db' := by
  rw [consumeIngredient] at h
  cases hfind : findItem db ing.inventory_id with
  | none => rw [hfind] at h; cases h
  | some inv =>
    rw [hfind] at h
    cases h
    refine ledgerConsistent_bump db _ ing.inventory_id (-ing.quantity_used)
      { inventory_id := ing.inventory_id
        movement_type := "production_use"
        quantity := -ing.quantity_used
        unit_cost := none
        reason := "Used in production batch " ++ bn
        batch_number := some bn
        expiry_date := none
        created_at := now }
      (fun it => { it with current_stock := it.current_stock - ing.quantity_used,
                           updated_at := now })
      (fun _ => rfl) (fun it => sub_eq_add_neg it.current_stock ing.quantity_used)
      rfl rfl ?_ ?_ hc
    · simp
    · simp

theorem consumeIngredients_consistent (now : DateTime) (bid : Nat) (bn : String) :
    ∀ (db : DB) (ings : List IngredientInput) (db' : DB),
      consumeIngredients now bid bn db ings = some db' →
      ledgerConsistent db → ledgerConsistent db' := by
  intro db ings
  induction ings generalizing db with
  | nil =>
    intro db' h hc
    rw [consumeIngredients] at h
    cases h
    exact hc
  | cons ing rest ih =>
    intro db' h hc
    rw [consumeIngredients] at h
    cases hstep : consumeIngredient now bid bn db ing with
    | none => rw [hstep] at h; cases h
    | some db1 =>
      rw [hstep] at h
      exact ih db1 db' h (consumeIngredient_consistent now bid bn db db1 ing hstep hc)

/-! ## Operation-level consistency and totality lemmas -/

theorem create_purchase_consistent (db : DB) (input : CreatePurchaseInput)
    (now : DateTime) (db' : DB) (res : PurchaseResult)
    (h : create_purchase db input now = some (db', res))
    (hc : ledgerConsistent db) : ledgerConsistent db' := by
  simp only [create_purchase] at h
  cases hp : processPurchaseItems (input.purchase_date.getD now)
      (input.notes.getD "Purchase") db input.items with
  | none => rw [hp] at h; cases h
  | some p =>
    obtain ⟨db2, items⟩ := p
    rw [hp] at h
    cases h
    exact processPurchaseItems_consistent _ _ db input.items _ _ hp hc

theorem create_production_batch_consistent (db : DB)
    (input : CreateProductionBatchInput) (now : DateTime) (db' : DB)
    (res : ProductionBatchResult)
    (h : create_production_batch db input now = some (db', res))
    (hc : ledgerConsistent db) : ledgerConsistent db' := by
  simp only [create_production_batch] at h
  by_cases h1 : input.batch_size ≤ 0
  · rw [if_pos h1] at h; cases h; exact hc
  · rw [if_neg h1] at h
    by_cases h2 : input.ingredients.isEmpty
    · rw [if_pos h2] at h; cases h; exact hc
    · rw [if_neg h2] at h
      cases hprod : findActiveItem db input.product_inventory_id with
      | none => simp only [hprod] at h; cases h; exact hc
      | some prod =>
        simp only [hprod] at h
        cases hval : validateIngredients db input.ingredients with
        | some r => simp only [hval] at h; cases h; exact hc
        | none =>
          simp only [hval] at h
          cases hcons : consumeIngredients now db.next_batch_id
              (nextBatchNumber now.ymd (db.production_batches.map (·.batch_number)))
              (insertBatch db
                { id := db.next_batch_id
                  batch_number := nextBatchNumber now.ymd
                    (db.production_batches.map (·.batch_number))
                  product_inventory_id := input.product_inventory_id
                  recipe_template_id := input.recipe_template_id
                  batch_size := input.batch_size
                  unit := input.unit
                  start_date := now
                  estimated_completion_date := input.estimated_completion_date
                  completion_date := none
                  production_date := now
                  status := "in_progress"
                  production_time_hours := none
                  yield_percentage := none
                  actual_yield := none
                  quality_notes := none
                  storage_location := input.storage_location
                  notes := input.notes
                  updated_at := none }) input.ingredients with
          | none => rw [hcons] at h; cases h
          | some db2 =>
            rw [hcons] at h
            cases h
            refine consumeIngredients_consistent now db.next_batch_id _ _
              input.ingredients _ hcons ?_
            exact ledgerConsistent_of_eq db _ rfl rfl hc

theorem create_production_batch_isSome (db : DB) (input : CreateProductionBatchInput)
    (now : DateTime) : (create_production_batch db input now).isSome := by
  rw [create_production_batch]
  by_cases h1 : input.batch_size ≤ 0
  · rw [if_pos h1]; rfl
  · rw [if_neg h1]
    by_cases h2 : input.ingredients.isEmpty
    · rw [if_pos h2]; rfl
    · rw [if_neg h2]
      cases hprod : findActiveItem db input.product_inventory_id with
      | none => rfl
      | some prod =>
        cases hval : validateIngredients db input.ingredients with
        | some r => rfl
        | none =>
          have hall := validateIngredients_none db input.ingredients hval
          have hsome := consumeIngredients_isSome now db.next_batch_id
            (nextBatchNumber now.ymd (db.production_batches.map (·.batch_number)))
            (insertBatch db
              { id := db.next_batch_id
                batch_number := nextBatchNumber now.ymd
                  (db.production_batches.map (·.batch_number))
                product_inventory_id := input.product_inventory_id
                recipe_template_id := input.recipe_template_id
                batch_size := input.batch_size
                unit := input.unit
                start_date := now
                estimated_completion_date := input.estimated_completion_date
                completion_date := none
                production_date := now
                status := "in_progress"
                production_time_hours := none
                yield_percentage := none
                actual_yield := none
                quality_notes := none
                storage_location := input.storage_location
                notes := input.notes
                updated_at := none }) input.ingredients
            (fun ing hing => by
              rw [findItem_insertBatch]
              obtain ⟨-, it, hit, -⟩ := hall ing hing
              exact findItem_isSome_of_findActiveItem db ing.inventory_id it hit)
          cases hcons : consumeIngredients now db.next_batch_id
              (nextBatchNumber now.ymd (db.production_batches.map (·.batch_number)))
              (insertBatch db
                { id := db.next_batch_id
                  batch_number := nextBatchNumber now.ymd
                    (db.production_batches.map (·.batch_number))
                  product_inventory_id := input.product_inventory_id
                  recipe_template_id := input.recipe_template_id
                  batch_size := input.batch_size
                  unit := input.unit
                  start_date := now
                  estimated_completion_date := input.estimated_completion_date
                  completion_date := none
                  production_date := now
                  status := "in_progress"
                  production_time_hours := none
                  yield_percentage := none
                  actual_yield := none
                  quality_notes := none
                  storage_location := input.storage_location
                  notes := input.notes
                  updated_at := none }) input.ingredients with
          | none => rw [hcons] at hsome; cases hsome
          | some db2 => simp only [hcons]; rfl

theorem complete_production_batch_isSome (db : DB)
    (input : CompleteProductionBatchInput) (now : DateTime) :
    (complete_production_batch db input now).isSome := by
  rw [complete_production_batch]
  split
  · rfl
  · split
    · rfl
    · rfl

theorem fail_production_batch_isSome (db : DB) (input : FailProductionBatchInput)
    (now : DateTime) : (fail_production_batch db input now).isSome := by
  rw [fail_production_batch]
  split
  · rfl
  · split
    · rfl
    · rfl

theorem complete_production_batch_consistent (db : DB)
    (input : CompleteProductionBatchInput) (now : DateTime) (db' : DB)
    (res : ProductionBatchResult)
    (h : complete_production_batch db input now = some (db', res))
    (hc : ledgerConsistent db) : ledgerConsistent db' := by
  simp only [complete_production_batch] at h
  cases hb : findBatch db input.batch_id with
  | none => rw [hb] at h; cases h; exact hc
  | some batch =>
    simp only [hb] at h
    by_cases hs : batch.status ≠ "in_progress"
    · rw [if_pos hs] at h; cases h; exact hc
    · rw [if_neg hs] at h
      cases h
      refine ledgerConsistent_bump
        (updateBatch db input.batch_id (fun b =>
          { b with
            status := "completed"
            completion_date := some now
            actual_yield := some input.actual_yield
            yield_percentage := some (if batch.batch_size > 0 then
              input.actual_yield / batch.batch_size * 100 else 100)
            production_time_hours := some ((max (now.ts - batch.start_date.ts) 0 : Int) : ℚ)
            quality_notes := input.quality_notes
            updated_at := some now })) _
        batch.product_inventory_id input.actual_yield
        { inventory_id := batch.product_inventory_id
          movement_type := "production_output"
          quantity := input.actual_yield
          unit_cost := none
          reason := "Produced in batch " ++ batch.batch_number
          batch_number := some batch.batch_number
          expiry_date := none
          created_at := now }
        (fun it => { it with current_stock := it.current_stock + input.actual_yield,
                             updated_at := now })
        (fun _ => rfl) (fun _ => rfl) rfl rfl ?_ ?_ ?_
      · simp
      · simp
      · exact ledgerConsistent_of_eq db _ rfl rfl hc

theorem fail_production_batch_consistent (db : DB) (input : FailProductionBatchInput)
    (now : DateTime) (db' : DB) (res : ProductionBatchResult)
    (h : fail_production_batch db input now = some (db', res))
    (hc : ledgerConsistent db) : ledgerConsistent db' := by
  simp only [fail_production_batch] at h
  cases hb : findBatch db input.batch_id with
  | none => rw [hb] at h; cases h; exact hc
  | some batch =>
    simp only [hb] at h
    by_cases hs : batch.status ≠ "in_progress"
    · rw [if_pos hs] at h; cases h; exact hc
    · rw [if_neg hs] at h
      cases h
      exact ledgerConsistent_of_eq db _ rfl rfl hc

/-- Each of the four ledger operations preserves ledger consistency. -/
theorem runOp_preserves_ledger (db : DB) (op : Op) (hop : op.isLedger = true)
    (hc : ledgerConsistent db) : ledgerConsistent (runOp db op) := by
  cases op with
  | purchase input now =>
    rw [runOp]
    cases h : create_purchase db input now with
    | none => exact hc
    | some p =>
      obtain ⟨db', res⟩ := p
      exact create_purchase_consistent db input now db' res h hc
  | createBatch input now =>
    rw [runOp]
    cases h : create_production_batch db input now with
    | none => exact hc
    | some p =>
      obtain ⟨db', res⟩ := p
      exact create_production_batch_consistent db input now db' res h hc
  | completeBatch input now =>
    rw [runOp]
    cases h : complete_production_batch db input now with
    | none => exact hc
    | some p =>
      obtain ⟨db', res⟩ := p
      exact complete_production_batch_consistent db input now db' res h hc
  | failBatch input now =>
    rw [runOp]
    cases h : fail_production_batch db input now with
    | none => exact hc
    | some p =>
      obtain ⟨db', res⟩ := p
      exact fail_production_batch_consistent db input now db' res h hc
  | createItem input now => cases hop
  | updateItem input now => cases hop

/-- `create_purchase` throws exactly when some line's item id does not
resolve; business facts about the lines are never checked. -/
theorem create_purchase_eq_none_iff (db : DB) (input : CreatePurchaseInput)
    (now : DateTime) :
    create_purchase db input now = none ↔
      ∃ l ∈ input.items, findItem db l.inventory_id = none := by
  cases hp : processPurchaseItems (input.purchase_date.getD now)
      (input.notes.getD "Purchase") db input.items with
  | none =>
    simp only [create_purchase, hp]
    exact ⟨fun _ => (processPurchaseItems_none_iff _ _ db input.items).1 hp,
      fun _ => trivial⟩
  | some p =>
    simp only [create_purchase, hp]
    constructor
    · intro hcon
      cases hcon
    · intro hex
      have := (processPurchaseItems_none_iff (input.purchase_date.getD now)
        (input.notes.getD "Purchase") db input.items).2 hex
      rw [hp] at this
      cases this

/-! ## Lemmas about the batch sequencer -/

theorem digitChar_isDigit {d : Nat} (h : d < 10) : (digitChar d).isDigit = true := by
  have key : ∀ d, d < 10 → (digitChar d).isDigit = true := by decide
  exact key d h

theorem digitChar_toNat {d : Nat} (h : d < 10) : (digitChar d).toNat = 48 + d := by
  have key : ∀ d, d < 10 → (digitChar d).toNat = 48 + d := by decide
  exact key d h

theorem digitChar_ne_dash {d : Nat} (h : d < 10) : digitChar d ≠ '-' := by
  have key : ∀ d, d < 10 → digitChar d ≠ '-' := by decide
  exact key d h

theorem digitChar_ne_plus {d : Nat} (h : d < 10) : digitChar d ≠ '+' := by
  have key : ∀ d, d < 10 → digitChar d ≠ '+' := by decide
  exact key d h

theorem digitChar_lt_iff {x y : Nat} (hx : x < 10) (hy : y < 10) :
    (digitChar x < digitChar y) ↔ x < y := by
  have key : ∀ x, x < 10 → ∀ y, y < 10 → ((digitChar x < digitChar y) ↔ x < y) := by decide
  exact key x hx y hy

theorem digitChar_inj {x y : Nat} (hx : x < 10) (hy : y < 10) :
    (digitChar x = digitChar y) ↔ x = y := by
  have key : ∀ x, x < 10 → ∀ y, y < 10 → ((digitChar x = digitChar y) ↔ x = y) := by decide
  exact key x hx y hy

theorem isDigit_ne_dash {c : Char} (h : c.isDigit = true) : c ≠ '-' := by
  intro he
  subst he
  exact absurd h (by decide)

theorem natDigitsGo_lt10 {f n : Nat} (hf : 1 ≤ f) (h : n < 10) :
    natDigitsGo f n = [digitChar n] := by
  cases f with
  | zero => omega
  | succ f => rw [natDigitsGo, if_pos h]

theorem natDigitsGo_lt100 {f n : Nat} (hf : 2 ≤ f) (h1 : 10 ≤ n) (h2 : n < 100) :
    natDigitsGo f n = [digitChar (n / 10), digitChar (n % 10)] := by
  cases f with
  | zero => omega
  | succ f =>
    rw [natDigitsGo, if_neg (by omega), natDigitsGo_lt10 (by omega) (by omega)]
    rfl

theorem natDigitsGo_lt1000 {f n : Nat} (hf : 3 ≤ f) (h1 : 100 ≤ n) (h2 : n < 1000) :
    natDigitsGo f n = [digitChar (n / 100), digitChar (n / 10 % 10), digitChar (n % 10)] := by
  cases f with
  | zero => omega
  | succ f =>
    rw [natDigitsGo, if_neg (by omega), natDigitsGo_lt100 (by omega) (by omega) (by omega)]
    have e : n / 10 / 10 = n / 100 := by omega
    rw [e]
    rfl

theorem natDigits_lt10 {n : Nat} (h : n < 10) : natDigits n = [digitChar n] :=
  natDigitsGo_lt10 (by omega) h

theorem natDigits_lt100 {n : Nat} (h1 : 10 ≤ n) (h2 : n < 100) :
    natDigits n = [digitChar (n / 10), digitChar (n % 10)] :=
  natDigitsGo_lt100 (by omega) h1 h2

theorem natDigits_lt1000 {n : Nat} (h1 : 100 ≤ n) (h2 : n < 1000) :
    natDigits n = [digitChar (n / 100), digitChar (n / 10 % 10), digitChar (n % 10)] :=
  natDigitsGo_lt1000 (by omega) h1 h2

/-- Width-3 zero-padding of `n ≤ 999` yields exactly the three decimal
digit characters of `n`. -/
theorem natPad3_data {n : Nat} (h : n ≤ 999) :
    (natPad3 n).data = [digitChar (n / 100), digitChar (n / 10 % 10), digitChar (n % 10)] := by
  by_cases h1 : n < 10
  · have e0 : n / 100 = 0 := by omega
    have e1 : n / 10 % 10 = 0 := by omega
    have e2 : n % 10 = n := by omega
    rw [natPad3, natDigits_lt10 h1, e0, e1, e2]
    rfl
  · by_cases h2 : n < 100
    · have e0 : n / 100 = 0 := by omega
      have e1 : n / 10 % 10 = n / 10 := by omega
      rw [natPad3, natDigits_lt100 (by omega) h2, e0, e1]
      rfl
    · rw [natPad3, natDigits_lt1000 (by omega) (by omega)]
      rfl

theorem natPad3_all_digit {n : Nat} (h : n ≤ 999) :
    ∀ c ∈ (natPad3 n).data, c.isDigit = true := by
  rw [natPad3_data h]
  intro c hc
  rcases List.mem_cons.1 hc with rfl | hc
  · exact digitChar_isDigit (by omega)
  rcases List.mem_cons.1 hc with rfl | hc
  · exact digitChar_isDigit (by omega)
  rcases List.mem_cons.1 hc with rfl | hc
  · exact digitChar_isDigit (by omega)
  cases hc

/-- Prepending a common character list preserves and reflects the
lexicographic order. -/
theorem lex_append_iff (p : List Char) (a b : List Char) :
    (p ++ a < p ++ b) ↔ a < b := by
  induction p with
  | nil => exact Iff.rfl
  | cons c p' ih =>
    rw [List.cons_append, List.cons_append]
    exact (List.Lex.cons_iff).trans ih

theorem listLtChars_iff : ∀ (a b : List Char), listLtChars a b = true ↔ a < b := by
  intro a
  induction a with
  | nil =>
    intro b
    cases b with
    | nil =>
      constructor
      · intro h
        cases h
      · intro h
        exact absurd h (List.Lex.not_nil_right _ _)
    | cons d ds =>
      constructor
      · intro _
        exact List.Lex.nil
      · intro _
        rfl
  | cons c cs ih =>
    intro b
    cases b with
    | nil =>
      constructor
      · intro h
        cases h
      · intro h
        exact absurd h (List.Lex.not_nil_right _ _)
    | cons d ds =>
      rw [listLtChars]
      by_cases h1 : c < d
      · rw [if_pos h1]
        exact ⟨fun _ => List.Lex.rel h1, fun _ => rfl⟩
      · rw [if_neg h1]
        by_cases h2 : d < c
        · rw [if_pos h2]
          constructor
          · intro h
            cases h
          · intro hl
            cases hl with
            | cons h => exact absurd h2 (lt_irrefl _)
            | rel h => exact absurd h2 (asymm h)
        · rw [if_neg h2]
          have hcd : c = d := le_antisymm (not_lt.1 h2) (not_lt.1 h1)
          subst hcd
          exact (ih ds).trans (List.Lex.cons_iff).symm

theorem lex_cons_iff' {x y : Char} {l1 l2 : List Char} :
    ((x :: l1 : List Char) < y :: l2) ↔ x < y ∨ (x = y ∧ l1 < l2) := by
  show List.Lex _ _ _ ↔ _
  constructor
  · intro h
    cases h with
    | cons h => exact Or.inr ⟨rfl, h⟩
    | rel h => exact Or.inl h
  · rintro (h | ⟨rfl, h⟩)
    · exact List.Lex.rel h
    · exact List.Lex.cons h

theorem not_nil_lt_nil : ¬ (([] : List Char) < []) :=
  List.Lex.not_nil_right _ _

/-- On equal-width zero-padded renderings, the lexicographic order
coincides with the numeric order. -/
theorem pad3_data_lt_iff {m n : Nat} (hm : m ≤ 999) (hn : n ≤ 999) :
    ((natPad3 m).data < (natPad3 n).data) ↔ m < n := by
  have b1 : m / 100 < 10 := by omega
  have b2 : m / 10 % 10 < 10 := by omega
  have b3 : m % 10 < 10 := by omega
  have b4 : n / 100 < 10 := by omega
  have b5 : n / 10 % 10 < 10 := by omega
  have b6 : n % 10 < 10 := by omega
  rw [natPad3_data hm, natPad3_data hn, lex_cons_iff', lex_cons_iff', lex_cons_iff',
    digitChar_lt_iff b1 b4, digitChar_inj b1 b4, digitChar_lt_iff b2 b5,
    digitChar_inj b2 b5, digitChar_lt_iff b3 b6, digitChar_inj b3 b6]
  constructor
  · rintro (h | ⟨e1, (h | ⟨e2, (h | ⟨e3, hf⟩)⟩)⟩)
    · omega
    · omega
    · omega
    · exact absurd hf not_nil_lt_nil
  · intro h
    by_cases h1 : m / 100 < n / 100
    · exact Or.inl h1
    · have e1 : m / 100 = n / 100 := by omega
      refine Or.inr ⟨e1, ?_⟩
      by_cases h2 : m / 10 % 10 < n / 10 % 10
      · exact Or.inl h2
      · have e2 : m / 10 % 10 = n / 10 % 10 := by omega
        exact Or.inr ⟨e2, Or.inl (by omega)⟩

theorem padded_lt_iff (pre : String) {m n : Nat} (hm : m ≤ 999) (hn : n ≤ 999) :
    (strLt (pre ++ natPad3 m) (pre ++ natPad3 n) = true) ↔ m < n := by
  rw [strLt, listLtChars_iff, String.data_append, String.data_append, lex_append_iff]
  exact pad3_data_lt_iff hm hn

theorem foldr_max_le (seqs : List Nat) (h : ∀ n ∈ seqs, n ≤ 999) :
    seqs.foldr max 0 ≤ 999 := by
  induction seqs with
  | nil =>
    rw [List.foldr_nil]
    omega
  | cons n rest ih =>
    rw [List.foldr_cons]
    exact max_le (h n (List.mem_cons_self n rest))
      (ih (fun m hm => h m (List.mem_cons_of_mem n hm)))

/-- The `ORDER BY ... DESC LIMIT 1` maximum over equal-width padded numbers
is the padded numeric maximum. -/
theorem maxBatchNumber?_map (pre : String) :
    ∀ (seqs : List Nat), (∀ n ∈ seqs, n ≤ 999) → seqs ≠ [] →
      maxBatchNumber? (seqs.map (fun n => pre ++ natPad3 n)) =
        some (pre ++ natPad3 (seqs.foldr max 0)) := by
  intro seqs
  induction seqs with
  | nil => intro _ hne; exact absurd rfl hne
  | cons n rest ih =>
    intro hall _
    have hn : n ≤ 999 := hall n (List.mem_cons_self n rest)
    have hrest : ∀ m ∈ rest, m ≤ 999 :=
      fun m hm => hall m (List.mem_cons_of_mem n hm)
    rw [List.map_cons, maxBatchNumber?]
    cases rest with
    | nil =>
      show some (pre ++ natPad3 n) = some (pre ++ natPad3 (max n (List.foldr max 0 [])))
      rw [List.foldr_nil, Nat.max_zero]
    | cons m rest' =>
      rw [ih hrest (by simp)]
      have hM : List.foldr max 0 (m :: rest') ≤ 999 := foldr_max_le _ hrest
      show some (if strLt (pre ++ natPad3 (List.foldr max 0 (m :: rest')))
            (pre ++ natPad3 n) = true
          then pre ++ natPad3 n else pre ++ natPad3 (List.foldr max 0 (m :: rest'))) =
        some (pre ++ natPad3 (max n (List.foldr max 0 (m :: rest'))))
      by_cases hlt : List.foldr max 0 (m :: rest') < n
      · rw [if_pos ((padded_lt_iff pre hM hn).2 hlt),
          Nat.max_eq_left (Nat.le_of_lt hlt)]
      · rw [if_neg (fun hc => hlt ((padded_lt_iff pre hM hn).1 hc)),
          Nat.max_eq_right (by omega)]

theorem isInit_append (p rest : List Char) : isInit p (p ++ rest) = true := by
  induction p with
  | nil => rfl
  | cons c p' ih =>
    rw [List.cons_append, isInit]
    simp [ih]

theorem splitDash_nodash (xs : List Char) (h : ∀ c ∈ xs, c ≠ '-') :
    splitDash xs = [xs] := by
  induction xs with
  | nil => rfl
  | cons c rest ih =>
    rw [splitDash, if_neg (h c (List.mem_cons_self c rest)),
      ih (fun d hd => h d (List.mem_cons_of_mem c hd))]

theorem splitDash_append (xs ys : List Char) (h : ∀ c ∈ xs, c ≠ '-') :
    splitDash (xs ++ '-' :: ys) = xs :: splitDash ys := by
  induction xs with
  | nil =>
    rw [List.nil_append, splitDash, if_pos rfl]
  | cons c rest ih =>
    rw [List.cons_append, splitDash, if_neg (h c (List.mem_cons_self c rest)),
      ih (fun d hd => h d (List.mem_cons_of_mem c hd))]

theorem wrapI32_eq {v : Int} (h1 : 0 ≤ v) (h2 : v < 2147483648) : wrapI32 v = v := by
  rw [wrapI32]
  omega

/-- Parsing the padded rendering of `M ≤ 999` recovers `M`. -/
theorem parseI32_natPad3 {M : Nat} (hM : M ≤ 999) :
    parseI32 (natPad3 M) = some (M : Int) := by
  have b1 : M / 100 < 10 := by omega
  have b2 : M / 10 % 10 < 10 := by omega
  have b3 : M % 10 < 10 := by omega
  simp only [parseI32, natPad3_data hM]
  rw [if_neg (digitChar_ne_plus b1), if_neg (digitChar_ne_dash b1), parseDigitsI32]
  rw [if_neg (by simp)]
  rw [if_pos (by
    simp only [List.all_cons, List.all_nil, Bool.and_eq_true]
    exact ⟨digitChar_isDigit b1, digitChar_isDigit b2, digitChar_isDigit b3, trivial⟩)]
  have hval : ([digitChar (M / 100), digitChar (M / 10 % 10), digitChar (M % 10)].foldl
      (fun a c => a * 10 + (c.toNat - 48)) 0) = M := by
    rw [List.foldl_cons, List.foldl_cons, List.foldl_cons, List.foldl_nil,
      digitChar_toNat b1, digitChar_toNat b2, digitChar_toNat b3]
    omega
  rw [hval, if_pos (by constructor <;> omega)]
  rw [one_mul]

/-- The sequence computed from the lexicographically greatest well-formed
batch number `BATCH-{ymd}-{M:03}` is `M + 1`. -/
theorem batchSequence_padded (ymd : String) (M : Nat)
    (hy : ∀ c ∈ ymd.data, c.isDigit = true) (hM : M ≤ 999) :
    batchSequence (some ((("BATCH-" ++ ymd) ++ "-") ++ natPad3 M)) = (M : Int) + 1 := by
  have hdata : ((("BATCH-" ++ ymd) ++ "-") ++ natPad3 M).data =
      "BATCH".data ++ '-' :: (ymd.data ++ '-' :: (natPad3 M).data) := by
    rw [String.data_append, String.data_append]
    show ("BATCH".data ++ ['-']) ++ ymd.data ++ ['-'] ++ (natPad3 M).data = _
    simp [List.append_assoc]
  rw [batchSequence, hdata,
    splitDash_append _ _ (by decide),
    splitDash_append _ _ (fun c hc => isDigit_ne_dash (hy c hc)),
    splitDash_nodash _ (fun c hc => isDigit_ne_dash (natPad3_all_digit hM c hc))]
  rw [List.map_cons, List.map_cons, List.map_cons, List.map_nil]
  have hcond : (([String.mk "BATCH".data, String.mk ymd.data,
      String.mk (natPad3 M).data].length == 3) = true) := rfl
  rw [if_pos hcond]
  show wrapI32 ((parseI32 ((String.mk (natPad3 M).data))).getD 0 + 1) = (M : Int) + 1
  have : String.mk (natPad3 M).data = natPad3 M := by
    cases hpad : natPad3 M
    rfl
  rw [this, parseI32_natPad3 hM, Option.getD_some, wrapI32_eq (by omega) (by omega)]

theorem fmt03_natCast (k : Nat) : fmt03 (k : Int) = natPad3 k := by
  rw [fmt03, if_neg (by omega : ¬((k : Int) < 0))]
  simp

/-- The batch sequencer, on a table whose matching numbers are exactly the
well-formed padded renderings of `seqs`, returns the stem plus the padded
numeric maximum plus one (`-001` when `seqs` is empty, since
`foldr max 0 [] = 0`). -/
theorem nextBatchNumber_spec (ymd : String) (seqs : List Nat)
    (hymd : ∀ c ∈ ymd.data, c.isDigit = true)
    (hseq : ∀ n ∈ seqs, n ≤ 999) :
    nextBatchNumber ymd (seqs.map (fun n => "BATCH-" ++ ymd ++ "-" ++ natPad3 n)) =
      "BATCH-" ++ ymd ++ "-" ++ natPad3 (seqs.foldr max 0 + 1) := by
  rw [nextBatchNumber]
  have hfil : (seqs.map (fun n => "BATCH-" ++ ymd ++ "-" ++ natPad3 n)).filter
      (fun s => isInit ((("BATCH-" ++ ymd) ++ "-")).data s.data) =
      seqs.map (fun n => "BATCH-" ++ ymd ++ "-" ++ natPad3 n) := by
    rw [List.filter_eq_self]
    intro s hs
    obtain ⟨n, hn, rfl⟩ := List.mem_map.1 hs
    rw [String.data_append]
    exact isInit_append _ _
  rw [hfil]
  cases seqs with
  | nil =>
    rfl
  | cons n rest =>
    have hM : (n :: rest).foldr max 0 ≤ 999 := foldr_max_le _ hseq
    rw [maxBatchNumber?_map (("BATCH-" ++ ymd) ++ "-") (n :: rest) hseq (by simp),
      batchSequence_padded ymd _ hymd hM,
      show ((((n :: rest).foldr max 0 : Nat) : Int) + 1) =
        (((n :: rest).foldr max 0 + 1 : Nat) : Int) from by omega,
      fmt03_natCast]

/-! ## Claim theorems -/

/-- C1 (counterexample): starting from a ledger-consistent state, the
engine-exposed operations `create_inventory_item` (with a nonzero initial
`current_stock`) and `update_inventory_item` (overwriting `current_stock`)
change stock without appending any movement entry, so afterwards
`current_stock` no longer equals the sum of the item's movement
quantities. -/
theorem item_crud_breaks_ledger_invariant :
    ledgerConsistent dbZero ∧
    ¬ ledgerConsistent (runOp dbZero (Op.createItem ciStock5 now0)) ∧
    ¬ ledgerConsistent (runOp dbZero (Op.updateItem uiStock7 now0)) := by
  with_unfolding_all decide

/-- C1 (amended): after any sequence of committed *ledger* operations
(purchase, create/complete/fail production batch) from a state where every
item's `current_stock` equals the sum of its movement quantities, that
ledger/aggregate consistency still holds — each of these operations appends
movement entries carrying exactly the stock deltas it applies.  (The
item-CRUD mutations `create_inventory_item` / `update_inventory_item` are
excluded: they can set `current_stock` without logging a movement.) -/
theorem ledger_ops_preserve_consistency (db : DB) (ops : List Op)
    (hc : ledgerConsistent db) (hops : ∀ op ∈ ops, op.isLedger = true) :
    ledgerConsistent (ops.foldl runOp db) := by
  induction ops generalizing db with
  | nil => exact hc
  | cons op rest ih =>
    rw [List.foldl_cons]
    exact ih (runOp db op)
      (runOp_preserves_ledger db op (hops op (List.mem_cons_self op rest)) hc)
      (fun o ho => hops o (List.mem_cons_of_mem op ho))

/-- C1 (witness): a concrete run of all four ledger operations from a
consistent state stays consistent. -/
theorem ledger_ops_preserve_consistency_witness :
    ledgerConsistent dbZero ∧ (∀ op ∈ opsLedger, op.isLedger = true) ∧
    ledgerConsistent (opsLedger.foldl runOp dbZero) :=
  ⟨by with_unfolding_all decide, by decide,
    ledger_ops_preserve_consistency dbZero opsLedger
      (by with_unfolding_all decide) (by decide)⟩

/-- C2 (code bug): the per-ingredient stock decrement of
`create_production_batch` is *not* conditional: applied in a state where the
ingredient's `current_stock` (5) is below the requested `quantity_used`
(12), the decrement still applies, drives stock to −7 < 0, and does not
abort the unit of work. -/
theorem decrement_is_unconditional :
    (consumeIngredient now0 3 "BATCH-20261012-001" dbLow
        { inventory_id := 1, quantity_used := 12 }).map (fun d => stockOf d 1) =
      some (some (-7)) ∧ ((-7 : ℚ) < 0) := by
  with_unfolding_all decide

/-- C3: whenever some ingredient of a `CreateProductionBatch` request has an
active item whose `current_stock` is below `quantity_used` at validation
time, the call returns a structured failure — `success:false`, a nonempty
message, no batch id, no batch number — and the state is returned
unchanged. -/
theorem insufficient_stock_structured_failure (db : DB)
    (input : CreateProductionBatchInput) (now : DateTime)
    (h : ∃ ing ∈ input.ingredients, ∃ it,
      findActiveItem db ing.inventory_id = some it ∧
      it.current_stock < ing.quantity_used) :
    ∃ r, create_production_batch db input now = some (db, r) ∧
      r.success = false ∧ r.batch_id = none ∧ r.batch_number = none ∧
      r.message ≠ "" := by
  rw [create_production_batch]
  by_cases h1 : input.batch_size ≤ 0
  · rw [if_pos h1]
    exact ⟨_, rfl, rfl, rfl, rfl, by decide⟩
  · rw [if_neg h1]
    by_cases h2 : input.ingredients.isEmpty
    · rw [if_pos h2]
      exact ⟨_, rfl, rfl, rfl, rfl, by decide⟩
    · rw [if_neg h2]
      cases hprod : findActiveItem db input.product_inventory_id with
      | none => exact ⟨_, rfl, rfl, rfl, rfl, by decide⟩
      | some prod =>
        cases hval : validateIngredients db input.ingredients with
        | none =>
          exfalso
          obtain ⟨ing, hing, it, hit, hlt⟩ := h
          obtain ⟨-, it', hit', hge⟩ :=
            validateIngredients_none db input.ingredients hval ing hing
          rw [hit] at hit'
          injection hit' with hit''
          rw [← hit''] at hge
          exact absurd hlt (not_lt.2 hge)
        | some r =>
          obtain ⟨hs, hbi, hbn, hm⟩ := validateIngredients_some db input.ingredients r hval
          exact ⟨r, rfl, hs, hbi, hbn, hm⟩

/-- C3 (witness): consuming 12 units of an item with stock 5 yields a
structured failure and leaves the state untouched. -/
theorem insufficient_stock_structured_failure_witness :
    ∃ r, create_production_batch dbLow bTooMuch now0 = some (dbLow, r) ∧
      r.success = false ∧ r.batch_id = none ∧ r.batch_number = none ∧
      r.message ≠ "" :=
  insufficient_stock_structured_failure dbLow bTooMuch now0
    ⟨{ inventory_id := 1, quantity_used := 12 }, by decide, itemLow, by decide, by decide⟩

/-- C4: for a batch already in a terminal state (`completed` or `failed`),
both `complete_production_batch` and `fail_production_batch` return
`success:false` with message `"Batch is already {status}"` and hand back the
state unchanged — no batch field and no stock is modified. -/
theorem terminal_batch_never_transitions (db : DB) (now : DateTime)
    (cinp : CompleteProductionBatchInput) (finp : FailProductionBatchInput)
    (b c : ProductionBatch)
    (hb : findBatch db cinp.batch_id = some b)
    (hbt : b.status = "completed" ∨ b.status = "failed")
    (hfc : findBatch db finp.batch_id = some c)
    (hct : c.status = "completed" ∨ c.status = "failed") :
    complete_production_batch db cinp now =
      some (db, { success := false, message := "Batch is already " ++ b.status,
                  batch_id := none, batch_number := some b.batch_number }) ∧
    fail_production_batch db finp now =
      some (db, { success := false, message := "Batch is already " ++ c.status,
                  batch_id := none, batch_number := some c.batch_number }) := by
  constructor
  · simp only [complete_production_batch, hb]
    rcases hbt with h | h <;> rw [h, if_pos (by decide)]
  · simp only [fail_production_batch, hfc]
    rcases hct with h | h <;> rw [h, if_pos (by decide)]

/-- C4 (witness): a completed and a failed batch both reject a second
terminal transition. -/
theorem terminal_batch_never_transitions_witness :
    complete_production_batch dbFx
        { batch_id := 1, actual_yield := 95, quality_notes := none } now0 =
      some (dbFx, { success := false, message := "Batch is already " ++ batchDone.status,
                    batch_id := none, batch_number := some batchDone.batch_number }) ∧
    fail_production_batch dbFx { batch_id := 2, reason := "late" } now0 =
      some (dbFx, { success := false, message := "Batch is already " ++ batchGone.status,
                    batch_id := none, batch_number := some batchGone.batch_number }) :=
  terminal_batch_never_transitions dbFx now0
    { batch_id := 1, actual_yield := 95, quality_notes := none }
    { batch_id := 2, reason := "late" } batchDone batchGone
    (by decide) (Or.inl (by decide)) (by decide) (Or.inr (by decide))

/-- C5 (counterexample): `create_purchase` performs no business validation —
a line on an inactive item is accepted with `success:true`, and a line on a
missing item surfaces as a thrown error (`none`), not as a structured
`success:false` result. -/
theorem purchase_skips_business_validation :
    ((create_purchase dbFx pInactive now0).map (fun p => p.2.success) = some true) ∧
    create_purchase dbFx pMissing now0 = none := by
  with_unfolding_all decide

/-- C5 (amended): the three batch operations never throw — every expected
business condition (bad size, empty or nonpositive ingredients, missing or
inactive product/ingredient, insufficient stock, batch not found, batch
already terminal) comes back as a structured result; `create_purchase`
throws exactly when a line's item id does not resolve, and checks nothing
else (in particular, inactive items are accepted). -/
theorem business_outcomes_vs_thrown (db : DB) (now : DateTime)
    (binp : CreateProductionBatchInput) (cinp : CompleteProductionBatchInput)
    (finp : FailProductionBatchInput) (pinp : CreatePurchaseInput) :
    (create_production_batch db binp now).isSome ∧
    (complete_production_batch db cinp now).isSome ∧
    (fail_production_batch db finp now).isSome ∧
    (create_purchase db pinp now = none ↔
      ∃ l ∈ pinp.items, findItem db l.inventory_id = none) :=
  ⟨create_production_batch_isSome db binp now,
   complete_production_batch_isSome db cinp now,
   fail_production_batch_isSome db finp now,
   create_purchase_eq_none_iff db pinp now⟩

/-- C6: `create_purchase` appends one `purchase` movement per line, carrying
the line's quantity and `unit_cost`, then increments the item's
`current_stock` by the quantity and overwrites `cost_per_unit` with the
line's `unit_cost`; the result reports success and one updated item record
per line; and a failing line (unresolvable item id) aborts the whole
purchase as one unit (`none`: the transaction rolls back, no partial stock
update persists). -/
theorem create_purchase_line_effects (db : DB) (input : CreatePurchaseInput)
    (now : DateTime)
    (hdist : input.items.Pairwise (fun a b => a.inventory_id ≠ b.inventory_id))
    (hex : ∀ l ∈ input.items, (findItem db l.inventory_id).isSome) :
    (∃ db' res, create_purchase db input now = some (db', res) ∧
      res.success = true ∧
      db'.inventory_logs = db.inventory_logs ++
        input.items.map (mkPurchaseLog (input.notes.getD "Purchase")
          (input.purchase_date.getD now)) ∧
      res.updated_items.length = input.items.length ∧
      ∀ l ∈ input.items, findItem db' l.inventory_id =
        (findItem db l.inventory_id).map
          (applyPurchaseLine (input.purchase_date.getD now) l)) ∧
    (∀ (dbf : DB) (inputf : CreatePurchaseInput),
      (∃ l ∈ inputf.items, findItem dbf l.inventory_id = none) →
      create_purchase dbf inputf now = none) := by
  constructor
  · cases hp : processPurchaseItems (input.purchase_date.getD now)
        (input.notes.getD "Purchase") db input.items with
    | none =>
      exfalso
      obtain ⟨l, hl, hno⟩ :=
        (processPurchaseItems_none_iff (input.purchase_date.getD now)
          (input.notes.getD "Purchase") db input.items).1 hp
      have := hex l hl
      rw [hno] at this
      cases this
    | some p =>
      obtain ⟨db2, items⟩ := p
      obtain ⟨hlogs, hlen, -, -, -⟩ :=
        processPurchaseItems_spec (input.purchase_date.getD now)
          (input.notes.getD "Purchase") db input.items _ _ hp
      have heq : create_purchase db input now = some (db2,
          { success := true
            message := "Successfully processed purchase of " ++
              toString items.length ++ " items"
            updated_items := items }) := by
        simp only [create_purchase, hp]
      exact ⟨db2, _, heq, rfl, hlogs, hlen,
        processPurchaseItems_stock (input.purchase_date.getD now)
          (input.notes.getD "Purchase") db input.items _ _ hdist hp⟩
  · intro dbf inputf hexf
    exact (create_purchase_eq_none_iff dbf inputf now).2 hexf

/-- C6 (witness): a two-line purchase on two distinct existing items
succeeds with the stated per-line effects. -/
theorem create_purchase_line_effects_witness :
    ∃ db' res, create_purchase dbFx pTwo now0 = some (db', res) ∧
      res.success = true ∧
      db'.inventory_logs = dbFx.inventory_logs ++
        pTwo.items.map (mkPurchaseLog (pTwo.notes.getD "Purchase")
          (pTwo.purchase_date.getD now0)) ∧
      res.updated_items.length = pTwo.items.length ∧
      ∀ l ∈ pTwo.items, findItem db' l.inventory_id =
        (findItem dbFx l.inventory_id).map
          (applyPurchaseLine (pTwo.purchase_date.getD now0) l) :=
  (create_purchase_line_effects dbFx pTwo now0 (by decide) (by decide)).1

/-- C7: completing an `in_progress` batch marks it `completed` with
`yield_percentage = actual_yield / batch_size * 100` (100 when `batch_size`
is zero), `production_time_hours = max(0, now − start_date)` in hours,
increments the product item's `current_stock` by `actual_yield`, and
appends exactly one `production_output` movement with quantity
`+actual_yield`. -/
theorem complete_batch_effects (db : DB) (cinp : CompleteProductionBatchInput)
    (now : DateTime) (b : ProductionBatch) (p : InventoryItem)
    (hb : findBatch db cinp.batch_id = some b)
    (hst : b.status = "in_progress")
    (hbs : 0 ≤ b.batch_size)
    (hp : findItem db b.product_inventory_id = some p) :
    (complete_production_batch db cinp now).isSome ∧
    ∀ db' res, complete_production_batch db cinp now = some (db', res) →
      res.success = true ∧
      findBatch db' cinp.batch_id = some
        { b with status := "completed", completion_date := some now,
                 actual_yield := some cinp.actual_yield,
                 yield_percentage := some (if b.batch_size = 0 then 100
                   else cinp.actual_yield / b.batch_size * 100),
                 production_time_hours :=
                   some ((max 0 (now.ts - b.start_date.ts) : Int) : ℚ),
                 quality_notes := cinp.quality_notes,
                 updated_at := some now } ∧
      findItem db' b.product_inventory_id = some
        { p with current_stock := p.current_stock + cinp.actual_yield,
                 updated_at := now } ∧
      db'.inventory_logs = db.inventory_logs ++
        [{ inventory_id := b.product_inventory_id
           movement_type := "production_output"
           quantity := cinp.actual_yield
           unit_cost := none
           reason := "Produced in batch " ++ b.batch_number
           batch_number := some b.batch_number
           expiry_date := none
           created_at := now }] := by
  have hyield : (if b.batch_size > 0 then cinp.actual_yield / b.batch_size * 100
      else (100 : ℚ)) =
      (if b.batch_size = 0 then (100 : ℚ)
       else cinp.actual_yield / b.batch_size * 100) := by
    by_cases hz : b.batch_size = 0
    · rw [if_neg (by rw [hz]; exact lt_irrefl 0), if_pos hz]
    · have hpos : (0 : ℚ) < b.batch_size := lt_of_le_of_ne hbs (Ne.symm hz)
      rw [if_pos hpos, if_neg hz]
  refine ⟨complete_production_batch_isSome db cinp now, ?_⟩
  intro db' res heq
  simp only [complete_production_batch, hb] at heq
  rw [if_neg (by simp [hst])] at heq
  cases heq
  refine ⟨rfl, ?_, ?_, ?_⟩
  · simp only [findBatch_appendLog, findBatch_updateInv]
    rw [findBatch_updateBatch_self db cinp.batch_id (fun b2 =>
      { b2 with
        status := "completed"
        completion_date := some now
        actual_yield := some cinp.actual_yield
        yield_percentage := some (if b.batch_size > 0 then
          cinp.actual_yield / b.batch_size * 100 else 100)
        production_time_hours := some ((max (now.ts - b.start_date.ts) 0 : Int) : ℚ)
        quality_notes := cinp.quality_notes
        updated_at := some now }) (fun _ => rfl), hb, Option.map_some']
    rw [hyield, max_comm (now.ts - b.start_date.ts) 0]
  · simp only [findItem_appendLog]
    rw [findItem_updateInv_self _ _
      (fun it => { it with current_stock := it.current_stock + cinp.actual_yield,
                           updated_at := now }) (fun _ => rfl),
      findItem_updateBatch, hp, Option.map_some']
  · simp only [appendLog_logs, updateInv_logs, updateBatch_logs]

/-- C7 (witness): the spec scenario — `batch_size = 100`, completed with
`actualYield = 95` from a state with product stock 10 — succeeds, yields
95%, leaves product stock 105, and appends one `production_output` movement
of +95. -/
theorem complete_batch_effects_witness :
    (complete_production_batch dbFx
        { batch_id := 3, actual_yield := 95, quality_notes := none } now0).isSome ∧
    ((complete_production_batch dbFx
        { batch_id := 3, actual_yield := 95, quality_notes := none } now0).map
      (fun out => (out.2.success, stockOf out.1 1))) = some (true, some 105) ∧
    ((complete_production_batch dbFx
        { batch_id := 3, actual_yield := 95, quality_notes := none } now0).map
      (fun out => (findBatch out.1 3).map (fun b => (b.status, b.yield_percentage)))) =
      some (some ("completed", some 95)) ∧
    ((complete_production_batch dbFx
        { batch_id := 3, actual_yield := 95, quality_notes := none } now0).map
      (fun out => out.1.inventory_logs.map (fun e => (e.movement_type, e.quantity)))) =
      some [("production_output", 95)] :=
  ⟨(complete_batch_effects dbFx
      { batch_id := 3, actual_yield := 95, quality_notes := none }
      now0 batchProg itemA (by decide) (by decide)
      (by with_unfolding_all decide) (by decide)).1,
   of_decide_eq_true (by with_unfolding_all rfl),
   of_decide_eq_true (by with_unfolding_all rfl),
   of_decide_eq_true (by with_unfolding_all rfl)⟩

/-- C8 (counterexample): the sequencer takes the *lexicographically*
greatest batch number, not the numerically greatest sequence.  With
existing sequences 999 and 1000 for the day, the highest sequence is 1000,
so the claimed algorithm would return `BATCH-20261012-1001`; the code
returns `BATCH-20261012-1000`, a duplicate of an existing number. -/
theorem sequencer_not_numeric_max :
    nextBatchNumber "20261012" ["BATCH-20261012-999", "BATCH-20261012-1000"] =
      "BATCH-20261012-1000" ∧
    "BATCH-20261012-1000" ∈ ["BATCH-20261012-999", "BATCH-20261012-1000"] ∧
    nextBatchNumber "20261012" ["BATCH-20261012-999", "BATCH-20261012-1000"] ≠
      "BATCH-20261012-" ++ natPad3 (1000 + 1) := by
  decide

/-- C8 (amended): when every existing batch number for the day's stem is a
well-formed `BATCH-{ymd}-{NNN}` with a three-digit zero-padded sequence
(numerically at most 999 — in particular the lexicographic and numeric
maxima then agree), the sequencer returns the date stem plus the highest
existing sequence plus one, zero-padded to 3 digits, and `-001` when no
batch exists for the day (`foldr max 0 [] + 1 = 1`); when the latest
observed batch number's tail does not parse as an integer, the sequence
defaults to 1 instead of failing. -/
theorem sequencer_amended (ymd : String) (seqs : List Nat) (bn : String)
    (hymd : ∀ c ∈ ymd.data, c.isDigit = true)
    (hseq : ∀ n ∈ seqs, n ≤ 999)
    (hbn3 : ((splitDash bn.data).map String.mk).length = 3)
    (hbnp : parseI32 (((splitDash bn.data).map String.mk).getD 2 "") = none) :
    nextBatchNumber ymd (seqs.map (fun n => "BATCH-" ++ ymd ++ "-" ++ natPad3 n)) =
      "BATCH-" ++ ymd ++ "-" ++ natPad3 (seqs.foldr max 0 + 1) ∧
    batchSequence (some bn) = 1 := by
  refine ⟨nextBatchNumber_spec ymd seqs hymd hseq, ?_⟩
  simp only [batchSequence]
  rw [if_pos (by rw [hbn3]; rfl :
      ((((splitDash bn.data).map String.mk).length == 3) = true)), hbnp]
  show wrapI32 (0 + 1) = 1
  rw [show (0 : Int) + 1 = 1 from by omega]
  exact wrapI32_eq (by omega) (by omega)

/-- C8 (witness): with existing sequences 1 and 7 on 2026-10-12 the
sequencer returns `BATCH-20261012-008`, and a corrupt latest number
`BATCH-20261012-0xA` defaults the sequence to 1. -/
theorem sequencer_amended_witness :
    nextBatchNumber "20261012"
        ([1, 7].map (fun n => "BATCH-" ++ "20261012" ++ "-" ++ natPad3 n)) =
      "BATCH-" ++ "20261012" ++ "-" ++ natPad3 ([1, 7].foldr max 0 + 1) ∧
    batchSequence (some "BATCH-20261012-0xA") = 1 :=
  sequencer_amended "20261012" [1, 7] "BATCH-20261012-0xA"
    (by decide) (by decide) (by decide) (by decide)

/-- C10: `create_purchase` validates nothing about a line's quantity: for an
arbitrary signed quantity (zero and negative included) on an existing item,
the call succeeds, records a `purchase` movement with that signed quantity,
and sets `current_stock` to its old value plus the quantity — so a negative
quantity decreases stock and can drive it below zero. -/
theorem purchase_no_quantity_validation (db : DB) (now : DateTime) (sid : Nat)
    (pdate : Option DateTime) (notes : Option String) (l : PurchaseItemInput)
    (it : InventoryItem) (h : findItem db l.inventory_id = some it) :
    (create_purchase db
      { supplier_id := sid, items := [l], purchase_date := pdate, notes := notes }
      now).isSome ∧
    ∀ db' res,
      create_purchase db
        { supplier_id := sid, items := [l], purchase_date := pdate, notes := notes }
        now = some (db', res) →
      res.success = true ∧
      db'.inventory_logs = db.inventory_logs ++
        [mkPurchaseLog (notes.getD "Purchase") (pdate.getD now) l] ∧
      findItem db' l.inventory_id = some (applyPurchaseLine (pdate.getD now) l it) := by
  constructor
  · simp only [create_purchase, processPurchaseItems, findItem_appendLog, h]
    rfl
  · intro db' res heq
    simp only [create_purchase, processPurchaseItems, findItem_appendLog, h] at heq
    cases heq
    refine ⟨rfl, ?_, ?_⟩
    · simp only [updateInv_logs, appendLog_logs]
    · rw [findItem_updateInv_self _ _ (applyPurchaseLine (pdate.getD now) l)
        (fun _ => rfl), findItem_appendLog, h, Option.map_some']

/-- C10 (witness): a purchase line of −10 on an item with stock 5 succeeds
with a `purchase` movement of −10 and leaves `current_stock = −5 < 0`. -/
theorem purchase_no_quantity_validation_witness :
    (create_purchase dbLow
      { supplier_id := 7, items := [⟨1, -10, 2, none, none⟩],
        purchase_date := none, notes := none } now0).isSome ∧
    ((create_purchase dbLow
      { supplier_id := 7, items := [⟨1, -10, 2, none, none⟩],
        purchase_date := none, notes := none } now0).map
      (fun out => (out.2.success, stockOf out.1 1))) = some (true, some (-5)) ∧
    ((create_purchase dbLow
      { supplier_id := 7, items := [⟨1, -10, 2, none, none⟩],
        purchase_date := none, notes := none } now0).map
      (fun out => out.1.inventory_logs.map (fun e => (e.movement_type, e.quantity)))) =
      some [("purchase", -10)] ∧
    ((-5 : ℚ) < 0) :=
  ⟨(purchase_no_quantity_validation dbLow now0 7 none none ⟨1, -10, 2, none, none⟩
      itemLow (by decide)).1,
   of_decide_eq_true (by with_unfolding_all rfl),
   of_decide_eq_true (by with_unfolding_all rfl),
   of_decide_eq_true (by with_unfolding_all rfl)⟩

end FF
